import Mathlib

/-!
# Verification of the Fountain Spell Assist text-analysis core

A shallow embedding, in Lean 4, of the pure text-analysis functions of the
Fountain Spell Assist browser extension:

* `src/shared/dictionary.ts` — `levenshteinDistance`, `isAdjacentKeyTypo`,
  `getSuggestions`, `isWordCorrect`, `extractWords`, `findMisspellings`;
* `src/shared/grammar.ts` — `GRAMMAR_RULES`, `findGrammarErrors`,
  `grammarErrorToMisspelling`;
* `src/shared/storage.ts` — `getGlobalSettings`, `importDictionary`,
  `exportDictionary`, `matchesDisabledPattern`;
* `src/content/content.ts` — `isSensitiveField`, `isEditableField`,
  `performSpellCheck`, `ignoreWord` (as pure state transitions).

JavaScript strings are modelled as Lean `String` (ASCII-faithful: the
claims under study only involve ASCII data; `toLowerCase`/`toUpperCase`
are modelled by mapping `Char.toLower`/`Char.toUpper`, which agrees with
JavaScript on ASCII).  JavaScript `Set` iteration (insertion order) is
modelled by `List`.  Fallible code (property access on `undefined`)
returns `Option`.
-/

set_option maxRecDepth 100000

namespace FSA

/-! ## JavaScript string primitives -/

/-- JS `String.prototype.toLowerCase`, character-wise (ASCII-faithful). -/
def jsToLower (s : String) : String := ⟨s.data.map Char.toLower⟩

/-- JS `String.prototype.toUpperCase`, character-wise (ASCII-faithful). -/
def jsToUpper (s : String) : String := ⟨s.data.map Char.toUpper⟩

/-- The whitespace characters recognised by JS `\s` / `trim` (ASCII part). -/
def jsIsSpace (c : Char) : Bool :=
  c == ' ' || c == '\t' || c == '\n' || c == '\r' || c == '\x0b' || c == '\x0c'

/-- JS `String.prototype.trim` (ASCII whitespace). -/
def jsTrim (s : String) : String :=
  ⟨((s.data.dropWhile jsIsSpace).reverse.dropWhile jsIsSpace).reverse⟩

/-- Is `pre` a (character-wise) prefix of `l`? -/
def charsLeading : List Char → List Char → Bool
  | [], _ => true
  | _ :: _, [] => false
  | a :: as, b :: bs => a == b && charsLeading as bs

/-- Helper for `strIncludes`: does `needle` occur in some suffix of `hay`? -/
def includesAux (needle : List Char) : List Char → Bool
  | [] => charsLeading needle []
  | c :: rest => charsLeading needle (c :: rest) || includesAux needle rest

/-- JS `String.prototype.includes`. -/
def strIncludes (hay needle : String) : Bool :=
  includesAux needle.data hay.data

/-! ## `levenshteinDistance` (src/shared/dictionary.ts:650-675)

The source builds a `(b.length+1) × (a.length+1)` dynamic-programming
matrix row by row; row `0` is `0,1,…,a.length`, each later row `i` starts
with `i`, and each inner cell is
`if b[i-1] === a[j-1] then diag else min (diag+1) (left+1) (up+1)`.
The returned value is `matrix[b.length][a.length]`.

`levCells` computes the inner cells of one row (walking the previous row),
`levRowStep` one whole row, `levLoop` all rows, in direct correspondence
with the two nested `for` loops of the source. -/

/-- Inner cells of one DP row.  Arguments: current `b`-character, remaining
`a`-characters, remaining previous-row cells (starting at the diagonal
neighbour), value of the cell just computed to the left. -/
def levCells (bc : Char) : List Char → List Nat → Nat → List Nat
  | [], _, _ => []
  | _ :: _, [], _ => []
  | ac :: as, pd :: pr, cur =>
    let up := pr.headD 0
    let v := if bc = ac then pd else Nat.min (pd + 1) (Nat.min (cur + 1) (up + 1))
    v :: levCells bc as pr v

/-- One full DP row: the row index `i` followed by the inner cells. -/
def levRowStep (asChars : List Char) (prev : List Nat) (i : Nat) (bc : Char) : List Nat :=
  i :: levCells bc asChars prev i

/-- The outer DP loop over the characters of `b`. -/
def levLoop (asChars : List Char) : List Char → List Nat → Nat → List Nat
  | [], prev, _ => prev
  | bc :: bs, prev, i => levLoop asChars bs (levRowStep asChars prev (i + 1) bc) (i + 1)

/-- Embedding of `levenshteinDistance(a, b)`: run the DP and read the
bottom-right cell. -/
def levenshteinDistance (a b : String) : Nat :=
  (levLoop a.data b.data (List.range (a.data.length + 1)) 0).getLastD 0

/-- Reference (textbook) Levenshtein distance, by recursion on both lists. -/
def lev : List Char → List Char → Nat
  | [], ys => ys.length
  | xs, [] => xs.length
  | x :: xs, y :: ys =>
    if x = y then lev xs ys
    else 1 + Nat.min (lev xs ys) (Nat.min (lev (x :: xs) ys) (lev xs (y :: ys)))
termination_by xs ys => xs.length + ys.length
decreasing_by all_goals (simp only [List.length_cons]; omega)

theorem lev_nil_left (ys : List Char) : lev [] ys = ys.length := by
  cases ys <;> simp [lev]

theorem lev_nil_right (xs : List Char) : lev xs [] = xs.length := by
  cases xs <;> simp [lev]

theorem lev_cons_cons (x y : Char) (xs ys : List Char) :
    lev (x :: xs) (y :: ys) =
      if x = y then lev xs ys
      else 1 + Nat.min (lev xs ys) (Nat.min (lev (x :: xs) ys) (lev xs (y :: ys))) := by
  rw [lev]

/-- Specification of a DP row: the list
`[lev xs r, lev xs (a₁ :: r), lev xs (a₂ :: a₁ :: r), …]` obtained by
pushing the characters of `as` onto `r` one by one.  Row `i` of the DP
matrix (after consuming `i` characters of `b`) is `prefRow bsRev [] as`
where `bsRev` is the reversed consumed prefix of `b`. -/
def prefRow (xs : List Char) (r : List Char) : List Char → List Nat
  | [] => [lev xs r]
  | ac :: as => lev xs r :: prefRow xs (ac :: r) as

theorem prefRow_headD (xs r : List Char) (as : List Char) (d : Nat) :
    (prefRow xs r as).headD d = lev xs r := by
  cases as <;> rfl

theorem natMin_succ_succ (a b : Nat) : Nat.min (a + 1) (b + 1) = Nat.min a b + 1 :=
  Nat.succ_min_succ a b

theorem natMin_comm (a b : Nat) : Nat.min a b = Nat.min b a := Nat.min_comm a b

theorem levCells_prefRow (bc : Char) :
    ∀ (as : List Char) (xs r : List Char),
      prefRow (bc :: xs) r as =
        lev (bc :: xs) r :: levCells bc as (prefRow xs r as) (lev (bc :: xs) r) := by
  intro as
  induction as with
  | nil => intro xs r; rfl
  | cons ac as ih =>
    intro xs r
    have hcell : (if bc = ac then lev xs r
        else Nat.min (lev xs r + 1)
          (Nat.min (lev (bc :: xs) r + 1) (lev xs (ac :: r) + 1))) =
        lev (bc :: xs) (ac :: r) := by
      rw [lev_cons_cons]
      by_cases h : bc = ac
      · simp [h]
      · simp only [h, if_false]
        rw [natMin_succ_succ, natMin_succ_succ]
        omega
    show lev (bc :: xs) r :: prefRow (bc :: xs) (ac :: r) as = _
    rw [ih xs (ac :: r)]
    show _ = lev (bc :: xs) r ::
      levCells bc (ac :: as) (lev xs r :: prefRow xs (ac :: r) as) (lev (bc :: xs) r)
    simp only [levCells, prefRow_headD, hcell]

theorem levRowStep_prefRow (asChars : List Char) (xs : List Char) (bc : Char) :
    levRowStep asChars (prefRow xs [] asChars) (xs.length + 1) bc =
      prefRow (bc :: xs) [] asChars := by
  rw [levCells_prefRow bc asChars xs []]
  show (xs.length + 1) :: _ = lev (bc :: xs) [] :: _
  rw [lev_nil_right]
  rfl

theorem levLoop_prefRow (asChars : List Char) :
    ∀ (bs xs : List Char),
      levLoop asChars bs (prefRow xs [] asChars) xs.length =
        prefRow (bs.reverseAux xs) [] asChars := by
  intro bs
  induction bs with
  | nil => intro xs; rfl
  | cons bc bs ih =>
    intro xs
    show levLoop asChars bs
        (levRowStep asChars (prefRow xs [] asChars) (xs.length + 1) bc) (xs.length + 1) = _
    rw [levRowStep_prefRow]
    have : xs.length + 1 = (bc :: xs).length := rfl
    rw [this, ih (bc :: xs)]
    rfl

theorem prefRow_nil_left (asChars : List Char) :
    ∀ r : List Char,
      prefRow [] r asChars = List.range' r.length (asChars.length + 1) := by
  induction asChars with
  | nil =>
    intro r
    show [lev [] r] = _
    rw [lev_nil_left]
    rfl
  | cons ac as ih =>
    intro r
    show lev [] r :: prefRow [] (ac :: r) as = _
    rw [lev_nil_left, ih (ac :: r)]
    rfl

theorem prefRow_getLastD (xs : List Char) :
    ∀ (asChars r : List Char) (d : Nat),
      (prefRow xs r asChars).getLastD d = lev xs (asChars.reverseAux r) := by
  intro asChars
  induction asChars with
  | nil => intro r d; rfl
  | cons ac as ih =>
    intro r d
    show (lev xs r :: prefRow xs (ac :: r) as).getLastD d = _
    rw [List.getLastD_cons, ih (ac :: r)]
    rfl

/-- The DP of the source computes the textbook Levenshtein distance of the
reversed character lists (reversal is an artefact of relating prefix-based
DP rows to the head-recursive `lev`). -/
theorem levenshteinDistance_eq_lev (a b : String) :
    levenshteinDistance a b = lev b.data.reverse a.data.reverse := by
  unfold levenshteinDistance
  have hinit : List.range (a.data.length + 1) = prefRow [] [] a.data := by
    rw [prefRow_nil_left]
    exact List.range_eq_range' (a.data.length + 1)
  rw [hinit]
  have h0 : (0 : Nat) = ([] : List Char).length := rfl
  rw [h0, levLoop_prefRow a.data b.data []]
  rw [prefRow_getLastD]
  simp [List.reverseAux_eq]

theorem lev_self : ∀ xs : List Char, lev xs xs = 0 := by
  intro xs
  induction xs with
  | nil => rw [lev_nil_left]; rfl
  | cons x xs ih => rw [lev_cons_cons]; simp [ih]

theorem lev_symm : ∀ xs ys : List Char, lev xs ys = lev ys xs
  | [], [] => rfl
  | [], _ :: _ => by rw [lev_nil_left, lev_nil_right]
  | _ :: _, [] => by rw [lev_nil_left, lev_nil_right]
  | x :: xs, y :: ys => by
    rw [lev_cons_cons, lev_cons_cons]
    have h1 := lev_symm xs ys
    have h2 := lev_symm (x :: xs) ys
    have h3 := lev_symm xs (y :: ys)
    by_cases h : x = y
    · simp [h, eq_comm, h1]
    · have h' : ¬ y = x := fun hc => h hc.symm
      simp only [h, h', if_false, h1, h2, h3]
      rw [natMin_comm (lev ys (x :: xs)) (lev (y :: ys) xs)]
  termination_by xs ys => xs.length + ys.length
  decreasing_by all_goals (simp only [List.length_cons]; omega)

/-! ## Dictionary data and suggestion ranking (src/shared/dictionary.ts) -/

/-- The built-in word list `ENGLISH_WORDS` (src/shared/dictionary.ts:24-614),
in `Set` insertion order; duplicate literals collapse to the first
occurrence, as in a JS `Set`. -/
def ENGLISH_WORDS : List String := [
  "a", "an", "the", "this", "that", "these", "those", "my", "your", "his",
  "her", "its", "our", "their", "some", "any", "no", "every", "each", "all",
  "both", "few", "many", "much", "most", "other", "another", "such", "what", "which",
  "whose", "i", "me", "we", "us", "you", "he", "him", "she", "they",
  "them", "it", "who", "whom", "whoever", "whatever", "myself", "yourself", "himself", "herself",
  "itself", "ourselves", "themselves", "everyone", "everything", "someone", "something", "anyone", "anything", "nobody",
  "nothing", "everybody", "somebody", "in", "on", "at", "to", "for", "with", "by",
  "from", "up", "about", "into", "through", "during", "before", "after", "above", "below",
  "between", "under", "again", "further", "then", "once", "here", "there", "where", "when",
  "why", "how", "out", "off", "over", "own", "against", "along", "among", "around",
  "behind", "beside", "beyond", "within", "without", "upon", "toward", "towards", "across", "throughout",
  "inside", "outside", "and", "but", "or", "nor", "so", "yet", "because", "although",
  "while", "if", "unless", "until", "since", "whether", "though", "whereas", "however", "therefore",
  "moreover", "furthermore", "nevertheless", "meanwhile", "otherwise", "thus", "hence", "be", "am", "is",
  "are", "was", "were", "been", "being", "have", "has", "had", "having", "do",
  "does", "did", "doing", "done", "will", "would", "shall", "should", "may", "might",
  "must", "can", "could", "need", "dare", "ought", "used", "go", "goes", "went",
  "going", "gone", "get", "gets", "got", "getting", "gotten", "make", "makes", "made",
  "making", "know", "knows", "knew", "knowing", "known", "think", "thinks", "thought", "thinking",
  "take", "takes", "took", "taking", "taken", "see", "sees", "saw", "seeing", "seen",
  "come", "comes", "came", "coming", "want", "wants", "wanted", "wanting", "look", "looks",
  "looked", "looking", "use", "uses", "using", "find", "finds", "found", "finding", "give",
  "gives", "gave", "giving", "given", "tell", "tells", "told", "telling", "work", "works",
  "worked", "working", "call", "calls", "called", "calling", "try", "tries", "tried", "trying",
  "ask", "asks", "asked", "asking", "put", "puts", "putting", "mean", "means", "meant",
  "meaning", "keep", "keeps", "kept", "keeping", "let", "lets", "letting", "begin", "begins",
  "began", "beginning", "begun", "seem", "seems", "seemed", "seeming", "help", "helps", "helped",
  "helping", "show", "shows", "showed", "showing", "shown", "hear", "hears", "heard", "hearing",
  "play", "plays", "played", "playing", "run", "runs", "ran", "running", "move", "moves",
  "moved", "moving", "live", "lives", "lived", "living", "believe", "believes", "believed", "believing",
  "hold", "holds", "held", "holding", "bring", "brings", "brought", "bringing", "happen", "happens",
  "happened", "happening", "write", "writes", "wrote", "writing", "written", "provide", "provides", "provided",
  "providing", "sit", "sits", "sat", "sitting", "stand", "stands", "stood", "standing", "lose",
  "loses", "lost", "losing", "pay", "pays", "paid", "paying", "meet", "meets", "met",
  "meeting", "include", "includes", "included", "including", "continue", "continues", "continued", "continuing", "set",
  "sets", "setting", "learn", "learns", "learned", "learning", "change", "changes", "changed", "changing",
  "lead", "leads", "led", "leading", "understand", "understands", "understood", "understanding", "watch", "watches",
  "watched", "watching", "follow", "follows", "followed", "following", "stop", "stops", "stopped", "stopping",
  "create", "creates", "created", "creating", "speak", "speaks", "spoke", "speaking", "spoken", "read",
  "reads", "reading", "allow", "allows", "allowed", "allowing", "add", "adds", "added", "adding",
  "spend", "spends", "spent", "spending", "grow", "grows", "grew", "growing", "grown", "open",
  "opens", "opened", "opening", "walk", "walks", "walked", "walking", "win", "wins", "won",
  "winning", "offer", "offers", "offered", "offering", "remember", "remembers", "remembered", "remembering", "love",
  "loves", "loved", "loving", "consider", "considers", "considered", "considering", "appear", "appears", "appeared",
  "appearing", "buy", "buys", "bought", "buying", "wait", "waits", "waited", "waiting", "serve",
  "serves", "served", "serving", "die", "dies", "died", "dying", "send", "sends", "sent",
  "sending", "expect", "expects", "expected", "expecting", "build", "builds", "built", "building", "stay",
  "stays", "stayed", "staying", "fall", "falls", "fell", "falling", "fallen", "cut", "cuts",
  "cutting", "reach", "reaches", "reached", "reaching", "kill", "kills", "killed", "killing", "remain",
  "remains", "remained", "remaining", "suggest", "suggests", "suggested", "suggesting", "raise", "raises", "raised",
  "raising", "pass", "passes", "passed", "passing", "sell", "sells", "sold", "selling", "require",
  "requires", "required", "requiring", "report", "reports", "reported", "reporting", "decide", "decides", "decided",
  "deciding", "pull", "pulls", "pulled", "pulling", "time", "year", "people", "way", "day",
  "man", "woman", "child", "children", "world", "life", "hand", "part", "place", "case",
  "week", "company", "system", "program", "question", "government", "number", "night", "point", "home",
  "water", "room", "mother", "area", "money", "story", "fact", "month", "lot", "right",
  "study", "book", "eye", "job", "word", "business", "issue", "side", "kind", "head",
  "house", "service", "friend", "father", "power", "hour", "game", "line", "end", "member",
  "law", "car", "city", "community", "name", "president", "team", "minute", "idea", "kid",
  "body", "information", "back", "parent", "face", "others", "level", "office", "door", "health",
  "person", "art", "war", "history", "party", "result", "morning", "reason", "research", "girl",
  "guy", "moment", "air", "teacher", "force", "education", "foot", "feet", "boy", "age",
  "policy", "process", "music", "market", "sense", "nation", "plan", "college", "interest", "death",
  "experience", "effect", "class", "control", "care", "field", "development", "role", "effort", "rate",
  "heart", "drug", "leader", "light", "voice", "wife", "police", "mind", "difference", "period",
  "action", "attention", "road", "price", "court", "family", "data", "decision", "staff", "practice",
  "ground", "form", "value", "table", "model", "relationship", "activity", "communication", "computer", "property",
  "movie", "window", "evidence", "loss", "view", "nature", "player", "behavior", "knowledge", "event",
  "analysis", "environment", "performance", "treatment", "truth", "news", "strategy", "speech", "technology", "network",
  "reality", "baby", "ability", "agreement", "audience", "article", "ball", "bank", "base", "bed",
  "bill", "bit", "blood", "board", "box", "brother", "budget", "center", "century", "challenge",
  "chance", "character", "church", "citizen", "claim", "coach", "coast", "coffee", "collection", "color",
  "colour", "comment", "condition", "conference", "congress", "connection", "conversation", "corner", "cost", "country",
  "county", "couple", "course", "cover", "crime", "culture", "cup", "customer", "daughter", "deal",
  "debate", "degree", "department", "design", "detail", "director", "discussion", "disease", "doctor", "dog",
  "doubt", "drive", "economy", "edge", "election", "employee", "energy", "error", "example", "exchange",
  "executive", "exercise", "expert", "explanation", "failure", "faith", "fear", "feeling", "figure", "film",
  "fire", "firm", "fish", "floor", "focus", "food", "football", "front", "future", "garden",
  "gas", "generation", "glass", "goal", "god", "gold", "growth", "gun", "hair", "hall",
  "heat", "highway", "hill", "hope", "horse", "hospital", "hotel", "husband", "image", "impact",
  "importance", "income", "individual", "industry", "injury", "instance", "institution", "interview", "investment", "island",
  "item", "judge", "key", "king", "kitchen", "lake", "land", "language", "lawyer", "league",
  "leg", "letter", "library", "list", "literature", "location", "machine", "magazine", "management", "manager",
  "map", "marriage", "material", "matter", "measure", "media", "medicine", "memory", "message", "method",
  "middle", "military", "milk", "mission", "mistake", "movement", "murder", "museum", "neighborhood", "newspaper",
  "none", "note", "notice", "object", "occasion", "oil", "operation", "opinion", "opportunity", "option",
  "order", "organization", "owner", "page", "pain", "painting", "pair", "paper", "park", "partner",
  "past", "path", "patient", "pattern", "peace", "phone", "photograph", "picture", "piece", "plant",
  "plate", "pleasure", "pocket", "poem", "poet", "pool", "population", "position", "possibility", "potential",
  "presence", "pressure", "principle", "prison", "problem", "procedure", "production", "profession", "professor", "profit",
  "progress", "project", "promise", "protection", "public", "purpose", "quality", "race", "radio", "range",
  "reaction", "reader", "record", "reduction", "region", "religion", "representative", "request", "resource", "response",
  "responsibility", "rest", "restaurant", "return", "revolution", "ring", "risk", "river", "rock", "rule",
  "safety", "sale", "sample", "scale", "scene", "school", "science", "scientist", "score", "sea",
  "search", "season", "seat", "second", "section", "sector", "security", "selection", "self", "senate",
  "senator", "series", "sex", "shape", "share", "shot", "shoulder", "sign", "significance", "silence",
  "silver", "singer", "sister", "site", "situation", "size", "skill", "skin", "sleep", "smile",
  "snow", "society", "soil", "soldier", "solution", "son", "song", "sort", "sound", "source",
  "south", "space", "species", "spirit", "sport", "spot", "spring", "square", "stage", "standard",
  "star", "start", "state", "statement", "station", "status", "step", "stock", "stone", "store",
  "stranger", "street", "strength", "stress", "structure", "student", "stuff", "style", "subject", "success",
  "summer", "sun", "support", "surface", "surprise", "survey", "symbol", "target", "task", "tax",
  "tea", "technique", "television", "temperature", "term", "test", "text", "theory", "thing", "threat",
  "title", "today", "tomorrow", "tone", "tool", "top", "topic", "total", "touch", "tour",
  "town", "track", "trade", "tradition", "traffic", "training", "travel", "tree", "trend", "trial",
  "trip", "trouble", "truck", "trust", "turn", "type", "union", "unit", "university", "user",
  "variety", "version", "victim", "video", "village", "violence", "vision", "visit", "visitor", "volume",
  "vote", "wall", "weather", "website", "weekend", "weight", "west", "wind", "winter", "wood",
  "worker", "writer", "yesterday", "youth", "good", "new", "first", "last", "long", "great",
  "little", "old", "big", "high", "different", "small", "large", "next", "early", "young",
  "important", "bad", "same", "able", "free", "sure", "clear", "full", "special", "easy",
  "strong", "certain", "local", "recent", "true", "hard", "best", "better", "general", "specific",
  "possible", "real", "major", "personal", "current", "national", "natural", "physical", "short", "common",
  "single", "simple", "whole", "ready", "available", "likely", "similar", "present", "economic", "private",
  "foreign", "fine", "serious", "late", "human", "central", "necessary", "low", "close", "happy",
  "social", "beautiful", "nice", "popular", "final", "poor", "main", "wrong", "hot", "cold",
  "modern", "dark", "various", "entire", "basic", "particular", "positive", "financial", "international", "political",
  "medical", "traditional", "professional", "average", "successful", "independent", "significant", "interesting", "appropriate", "additional",
  "effective", "commercial", "environmental", "critical", "original", "normal", "regular", "official", "responsible", "cultural",
  "educational", "federal", "legal", "technical", "religious", "sexual", "historical", "mental", "global", "civil",
  "powerful", "industrial", "corporate", "digital", "electronic", "creative", "academic", "essential", "comprehensive", "practical",
  "typical", "perfect", "wonderful", "impossible", "terrible", "horrible", "excellent", "fantastic", "incredible", "amazing",
  "awesome", "awful", "obvious", "careful", "dangerous", "famous", "nervous", "comfortable", "competitive", "expensive",
  "impressive", "massive", "sensitive", "alternative", "conservative", "progressive", "aggressive", "negative", "relative", "active",
  "attractive", "extensive", "native", "objective", "productive", "protective", "selective", "alive", "alone", "asleep",
  "aware", "capable", "familiar", "former", "latter", "previous", "prior", "separate", "existing", "missing",
  "ongoing", "outstanding", "promising", "surprising", "underlying", "willing", "advanced", "increased", "limited", "reduced",
  "related", "supposed", "united", "worried", "domestic", "ethnic", "rural", "urban", "ancient", "contemporary",
  "democratic", "dramatic", "electric", "genetic", "organic", "romantic", "scientific", "strategic", "systematic", "automatic",
  "athletic", "authentic", "chronic", "classic", "cosmic", "dynamic", "exotic", "graphic", "historic", "magic",
  "magnetic", "plastic", "symbolic", "tragic", "not", "also", "very", "often", "just", "only",
  "well", "even", "still", "already", "always", "never", "now", "really", "actually", "probably",
  "usually", "especially", "quite", "rather", "almost", "finally", "perhaps", "simply", "sometimes", "certainly",
  "generally", "particularly", "recently", "clearly", "quickly", "easily", "exactly", "directly", "immediately", "completely",
  "absolutely", "naturally", "obviously", "definitely", "seriously", "relatively", "apparently", "eventually", "essentially", "basically",
  "typically", "previously", "currently", "originally", "increasingly", "significantly", "specifically", "necessarily", "potentially", "approximately",
  "fortunately", "unfortunately", "hopefully", "literally", "personally", "physically", "mentally", "financially", "politically", "socially",
  "publicly", "privately", "properly", "correctly", "strongly", "highly", "deeply", "widely", "closely", "frequently",
  "constantly", "regularly", "normally", "extremely", "entirely", "largely", "merely", "mostly", "nearly", "partly",
  "slightly", "somewhat", "totally", "truly", "virtually", "gradually", "rapidly", "slowly", "carefully", "fully",
  "suddenly", "successfully", "effectively", "accordingly", "consequently", "nonetheless", "instead", "elsewhere", "everywhere", "nowhere",
  "anywhere", "somewhere", "away", "together", "apart", "ahead", "beneath", "besides", "underneath", "upstairs",
  "downstairs", "nearby", "overseas", "tonight", "ago", "soon", "later", "lately", "twice", "zero",
  "one", "two", "three", "four", "five", "six", "seven", "eight", "nine", "ten",
  "eleven", "twelve", "thirteen", "fourteen", "fifteen", "sixteen", "seventeen", "eighteen", "nineteen", "twenty",
  "thirty", "forty", "fifty", "sixty", "seventy", "eighty", "ninety", "hundred", "thousand", "million",
  "billion", "trillion", "third", "fourth", "fifth", "sixth", "seventh", "eighth", "ninth", "tenth",
  "half", "quarter", "double", "triple", "monday", "tuesday", "wednesday", "thursday", "friday", "saturday",
  "sunday", "january", "february", "march", "april", "june", "july", "august", "september", "october",
  "november", "december", "don\x27t", "doesn\x27t", "didn\x27t", "won\x27t", "wouldn\x27t", "can\x27t", "couldn\x27t", "shouldn\x27t",
  "isn\x27t", "aren\x27t", "wasn\x27t", "weren\x27t", "haven\x27t", "hasn\x27t", "hadn\x27t", "i\x27m", "i\x27ve", "i\x27ll",
  "i\x27d", "you\x27re", "you\x27ve", "you\x27ll", "you\x27d", "he\x27s", "he\x27ll", "he\x27d", "she\x27s", "she\x27ll",
  "she\x27d", "it\x27s", "it\x27ll", "we\x27re", "we\x27ve", "we\x27ll", "we\x27d", "they\x27re", "they\x27ve", "they\x27ll",
  "they\x27d", "that\x27s", "that\x27ll", "that\x27d", "who\x27s", "who\x27ll", "who\x27d", "what\x27s", "what\x27ll", "what\x27d",
  "where\x27s", "where\x27ll", "where\x27d", "when\x27s", "when\x27ll", "when\x27d", "why\x27s", "why\x27ll", "why\x27d", "how\x27s",
  "how\x27ll", "how\x27d", "there\x27s", "there\x27ll", "there\x27d", "here\x27s", "let\x27s", "ain\x27t", "o\x27clock", "app",
  "apps", "blog", "browser", "click", "cloud", "code", "coding", "cookie", "cookies", "cyber",
  "database", "desktop", "download", "downloads", "email", "emails", "emoji", "file", "files", "folder",
  "folders", "google", "hack", "hacker", "hackers", "hashtag", "homepage", "icon", "icons", "inbox",
  "internet", "keyboard", "laptop", "laptops", "link", "links", "login", "logout", "malware", "menu",
  "mobile", "monitor", "mouse", "networks", "offline", "online", "password", "passwords", "pixel", "pixels",
  "plugin", "plugins", "podcast", "popup", "profile", "router", "screenshot", "screenshots", "server", "servers",
  "settings", "setup", "smartphone", "smartphones", "software", "spam", "startup", "startups", "sync", "tablet",
  "tablets", "tech", "template", "templates", "touchscreen", "tweet", "tweets", "update", "updates", "upgrade",
  "upgrades", "upload", "uploads", "url", "urls", "username", "usernames", "videos", "viral", "virus",
  "viruses", "web", "webcam", "webpage", "webpages", "websites", "wifi", "wireless", "www", "api",
  "backend", "frontend", "css", "html", "http", "https", "javascript", "json", "php", "python",
  "sql", "typescript", "github", "git", "repo", "repository", "ok", "okay", "yeah", "yes",
  "maybe", "please", "thanks", "thank", "sorry", "hello", "hi", "hey", "bye", "goodbye",
  "welcome", "congrats", "congratulations", "etc", "vs", "ie", "eg", "mr", "mrs", "ms",
  "dr", "jr", "sr", "inc", "ltd", "co", "llc", "corp", "plc", "org",
  "gov", "edu", "com", "net", "info", "quick", "brown", "fox", "jumps", "jump",
  "jumped", "jumping", "lazy", "dogs", "cat", "cats", "red", "blue", "green", "yellow",
  "black", "white", "pink", "purple", "orange", "grey", "gray", "fast", "slow", "tall",
  "wide", "narrow", "thick", "thin", "heavy", "soft", "loud", "quiet", "wet", "dry",
  "clean", "dirty", "empty", "bright", "sweet", "sour", "bitter", "salty", "fresh", "stale",
  "rough", "smooth", "sharp", "dull", "round", "flat", "straight", "curved", "academy", "accept",
  "acceptance", "access", "accessible", "accident", "accomplish", "accomplishment", "account", "accounting", "accurate", "achieve",
  "achievement", "acknowledge", "acknowledgment", "acquire", "acquisition", "act", "actor", "actress", "actual", "adapt",
  "adaptation", "addition", "address", "adequate", "adjust", "adjustment", "administration", "administrative", "administrator", "admire",
  "admission", "admit", "adopt", "adoption", "adult", "advance", "advantage", "adventure", "advertise", "advertisement",
  "advice", "advise", "advisor", "advocate", "affair", "affect", "affection", "afford", "afraid", "afternoon",
  "afterward", "agency", "agenda", "agent", "agree", "agricultural", "agriculture", "aid", "aim", "aircraft",
  "airline", "airport", "alarm", "album", "alcohol", "allege", "allegation", "alliance", "ally", "alter",
  "ambition", "ambitious", "amendment", "amount", "analyst", "analyze", "anger", "angle", "angry", "animal",
  "announce", "announcement", "annual", "answer", "anticipate", "anxiety", "anxious", "anybody", "anymore", "anyway",
  "apartment", "apologize", "apology", "apparent", "appeal", "appearance", "apple", "application", "apply", "appoint",
  "appointment", "appreciate", "approach", "approval", "approve", "architect", "architecture", "argue", "argument", "arise",
  "arm", "armed", "army", "arrange", "arrangement", "arrest", "arrival", "arrive", "arrow", "artist",
  "artistic", "as", "ashamed", "aside", "aspect", "assault", "assert", "assess", "assessment", "asset",
  "assign", "assignment", "assist", "assistance", "assistant", "associate", "association", "assume", "assumption", "assure",
  "athlete", "atmosphere", "attach", "attack", "attempt", "attend", "attitude", "attorney", "attract", "attraction",
  "attribute", "author", "authority", "authorize", "auto", "automatically", "automobile", "autumn", "avoid", "award",
  "awareness", "background", "backward", "badly", "bag", "bake", "balance", "ban", "band", "bar",
  "barely", "barrel", "barrier", "baseball", "basis", "basket", "basketball", "bath", "bathroom", "battery",
  "battle", "beach", "bean", "bear", "beat", "beauty", "become", "bedroom", "beer", "belief",
  "bell", "belong", "belt", "bench", "bend", "benefit", "bet", "bias", "bicycle", "bid",
  "bike", "bind", "biological", "biology", "bird", "birth", "birthday", "bite", "blade", "blame",
  "blank", "blanket", "blind", "block", "blow", "boat", "boil", "bold", "bomb", "bond",
  "bone", "boom", "boot", "border", "bore", "boring", "born", "borrow", "boss", "bother",
  "bottle", "bottom", "boundary", "bowl", "brain", "branch", "brand", "brave", "bread", "break",
  "breakfast", "breast", "breath", "breathe", "breathing", "breed", "brick", "bridge", "brief", "briefly",
  "brilliant", "broad", "broadcast", "broken", "brush", "buck", "bullet", "bunch", "burden", "burn",
  "bury", "bus", "bush", "busy", "butter", "button", "buyer", "cabin", "cabinet", "cable",
  "cake", "calculate", "calm", "camera", "camp", "campaign", "campus", "cancel", "cancer", "candidate",
  "candle", "candy", "cap", "capability", "capacity", "capital", "captain", "capture", "carbon", "card",
  "career", "carrier", "carry", "cash", "cast", "casual", "catch", "category", "cattle", "cause",
  "ceiling", "celebrate", "celebration", "celebrity", "cell", "cent", "ceremony", "chain", "chair", "chairman",
  "chamber", "champion", "championship", "channel", "chapter", "characteristic", "characterize", "charge", "charity", "chart",
  "chase", "cheap", "check", "cheek", "cheese", "chef", "chemical", "chest", "chicken", "chief",
  "childhood", "chip", "chocolate", "choice", "cholesterol", "choose", "chop", "cigarette", "circle", "circumstance",
  "cite", "civilian", "classroom", "clay", "clerk", "client", "cliff", "climate", "climb", "clinic",
  "clinical", "clock", "closer", "clothes", "clothing", "club", "clue", "cluster", "coal", "coalition",
  "coat", "cognitive", "collapse", "colleague", "collect", "collective", "colonial", "colony", "column", "combination",
  "combine", "comedy", "comfort", "command", "commander", "commission", "commissioner", "commit", "commitment", "committee",
  "commonly", "communicate", "compare", "comparison", "compete", "competition", "competitor", "complain", "complaint", "complete",
  "complex", "complicated", "component", "compose", "composition", "concentrate", "concentration", "concept", "concern", "concerned",
  "concert", "conclude", "conclusion", "concrete", "conduct", "confidence", "confident", "confirm", "conflict", "confront",
  "confusion", "congressional", "connect", "consciousness", "consensus", "consequence", "considerable", "consideration", "consist", "consistent",
  "constant", "constitute", "constitutional", "construct", "construction", "consultant", "consume", "consumer", "consumption", "contact",
  "contain", "container", "content", "contest", "context", "contract", "contrast", "contribute", "contribution", "controversial",
  "controversy", "convention", "conventional", "convert", "conviction", "convince", "cook", "cooking", "cool", "cooperation",
  "cop", "cope", "copy", "core", "corn", "corporation", "correct", "cotton", "couch", "council",
  "counselor", "count", "counter", "courage", "cousin", "coverage", "cow", "crack", "craft", "crash",
  "crazy", "cream", "creation", "creature", "credit", "crew", "criminal", "crisis", "critic", "criticism",
  "criticize", "crop", "cross", "crowd", "crucial", "cry", "cure", "curious", "curriculum", "curtain",
  "curve", "custom", "cute", "cycle", "dad", "daily", "damage", "dance", "dancer", "danger",
  "darkness", "date", "dawn", "dead", "dealer", "dear", "debt", "decade", "deck", "declare",
  "decline", "decrease", "deep", "deer", "defeat", "defend", "defendant", "defense", "defensive", "deficit",
  "define", "definition", "delay", "deliver", "delivery", "demand", "democracy", "democrat", "demonstrate", "demonstration",
  "deny", "departure", "depend", "dependent", "depending", "depict", "depression", "depth", "deputy", "derive",
  "describe", "description", "desert", "deserve", "designer", "desire", "desk", "desperate", "despite", "destroy",
  "destruction", "detailed", "detect", "determine", "develop", "developing", "device", "devote", "dialogue", "diet",
  "differ", "differently", "difficult", "difficulty", "dig", "dimension", "dining", "dinner", "direct", "direction",
  "dirt", "disability", "disagree", "disappear", "disaster", "discipline", "discourse", "discover", "discovery", "discrimination",
  "discuss", "dish", "dismiss", "disorder", "display", "dispute", "distance", "distant", "distinct", "distinction",
  "distinguish", "distribute", "distribution", "district", "diverse", "diversity", "divide", "division", "divorce", "dna",
  "document", "dominant", "dominate", "down", "downtown", "dozen", "draft", "drag", "drama", "dramatically",
  "draw", "drawing", "dream", "dress", "drink", "driver", "drop", "due", "dust", "duty",
  "eager", "ear", "earn", "earth", "ease", "east", "eastern", "eat", "economics", "economist",
  "edition", "editor", "educate", "educator", "efficiency", "efficient", "egg", "either", "elderly", "elect",
  "electricity", "element", "elementary", "eliminate", "elite", "else", "embrace", "emerge", "emergency", "emission",
  "emotion", "emotional", "emperor", "emphasis", "emphasize", "employ", "employer", "employment", "enable", "encounter",
  "encourage", "enemy", "enforcement", "engage", "engine", "engineer", "engineering", "english", "enhance", "enjoy",
  "enormous", "enough", "ensure", "enter", "enterprise", "entertainment", "entrance", "entry", "episode", "equal",
  "equally", "equation", "equipment", "era", "escape", "essay", "establish", "establishment", "estate", "estimate",
  "european", "evaluate", "evaluation", "evening", "ever", "everyday", "evolution", "evolve", "exact", "examination",
  "examine", "exceed", "except", "exception", "excited", "excitement", "exciting", "exclude", "excuse", "execute",
  "execution", "exhibit", "exhibition", "exist", "existence", "expand", "expansion", "expectation", "expense", "experiment",
  "explain", "explode", "explore", "explosion", "expose", "exposure", "express", "expression", "extend", "extension",
  "extent", "external", "extra", "extraordinary", "extreme", "fabric", "facility", "factor", "factory", "faculty",
  "fade", "fail", "fair", "fairly", "false", "fan", "fancy", "fantasy", "far", "farm",
  "farmer", "fashion", "fat", "fate", "fault", "favor", "favorite", "feature", "fee", "feed",
  "feel", "fellow", "female", "fence", "fewer", "fiber", "fiction", "fight", "fighter", "fighting",
  "fill", "finance", "finger", "finish", "fishing", "fit", "fitness", "fix", "flag", "flame",
  "flavor", "flee", "flesh", "flight", "float", "flow", "flower", "fly", "folk", "forest",
  "forever", "forget", "formal", "formation", "formula", "forth", "fortune", "forward", "foundation", "founder",
  "frame", "framework", "freedom", "freeze", "french", "frequency", "frequent", "friendly", "friendship", "fruit",
  "frustration", "fuel", "fun", "function", "fund", "fundamental", "funding", "funeral", "funny", "furniture",
  "gain", "galaxy", "gallery", "gang", "gap", "garage", "garlic", "gate", "gather", "gay",
  "gaze", "gear", "gender", "gene", "generate", "genius", "genre", "gentle", "gentleman", "gently",
  "genuine", "ghost", "giant", "gift", "gifted", "girlfriend", "glad", "glance", "globe", "glory",
  "golden", "golf", "governor", "grab", "grade", "graduate", "grain", "grand", "grandfather", "grandmother",
  "grant", "grass", "grave", "greatest", "greatly", "greet", "grocery", "group", "guarantee", "guard",
  "guess", "guest", "guide", "guideline", "guilty", "habit", "habitat", "handle", "hang", "happily",
  "happiness", "hardly", "hat", "hate", "headline", "headquarters", "healthy", "heaven", "heavily", "heel",
  "height", "helicopter", "hell", "helpful", "heritage", "hero", "hide", "highlight", "hip", "hire",
  "historian", "hit", "hole", "holiday", "holy", "homeless", "honest", "honey", "honor", "horizon",
  "horror", "host", "household", "housing", "huge", "humor", "hungry", "hunt", "hunter", "hunting",
  "hurt", "hypothesis", "ice", "ideal", "identification", "identify", "identity", "ignore", "ill", "illegal",
  "illness", "illustrate", "imagination", "imagine", "immediate", "immigrant", "immigration", "implement", "implementation", "implication",
  "imply", "impose", "impress", "impression", "improve", "improvement", "incentive", "incident", "incorporate", "increase",
  "increasing", "indeed", "independence", "index", "indicate", "indication", "inevitable", "infant", "infection", "inflation",
  "influence", "inform", "ingredient", "initial", "initially", "initiative", "inner", "innocent", "innovation", "input",
  "inquiry", "insight", "insist", "inspire", "install", "institutional", "instruction", "instructor", "instrument", "insurance",
  "intellectual", "intelligence", "intend", "intense", "intensity", "intention", "interaction", "interested", "internal", "interpret",
  "interpretation", "intervention", "introduce", "introduction", "invasion", "invest", "investigate", "investigation", "investigator", "investor",
  "invite", "involve", "involved", "involvement", "iron", "isolate", "jacket", "jail", "jet", "jewelry",
  "join", "joint", "joke", "journal", "journalist", "journey", "joy", "judgment", "juice", "junior",
  "jury", "justice", "justify", "kick", "killer", "kiss", "knee", "knife", "knock", "lab",
  "label", "labor", "laboratory", "lack", "lady", "landscape", "lap", "laugh", "launch", "lawn",
  "lawsuit", "lay", "layer", "leadership", "leaf", "lean", "least", "leather", "leave", "left",
  "legacy", "legend", "legislation", "legislative", "legislator", "legitimate", "lemon", "length", "lens", "less",
  "lesson", "liberal", "license", "lie", "lifestyle", "lifetime", "lift", "like", "limit", "limitation",
  "lip", "listen", "literary", "load", "loan", "locate", "lock", "loop", "loose", "lots",
  "lovely", "lover", "lower", "luck", "lucky", "lunch", "lung", "mad", "mail", "mainly",
  "maintain", "maintenance", "majority", "maker", "makeup", "male", "mall", "manage", "manner", "manufacturer",
  "manufacturing", "margin", "mark", "marketing", "married", "marry", "mask", "mass", "master", "match",
  "math", "mayor", "meal", "measurement", "meat", "mechanism", "medication", "medium", "membership", "mention",
  "mere", "mess", "metal", "meter", "mile", "mine", "minister", "minor", "minority", "miracle",
  "mirror", "miss", "missile", "mix", "mixture", "mm-hmm", "mode", "moderate", "modest", "mom",
  "mood", "moon", "moral", "more", "mortgage", "motion", "motivation", "motor", "mount", "mountain",
  "mouth", "multiple", "muscle", "musical", "musician", "mutual", "mystery", "myth", "nail", "narrative",
  "near", "neck", "negotiate", "negotiation", "neighbor", "neither", "nerve", "nest", "newly", "nod",
  "noise", "nomination", "north", "northern", "nose", "notion", "novel", "nuclear", "numerous", "nurse",
  "nut", "obligation", "observation", "observe", "observer", "obtain", "occasionally", "occur", "ocean", "odd",
  "odds", "of", "offense", "offensive", "officer", "oh", "onion", "onto", "operate", "operating",
  "operator", "opponent", "oppose", "opposite", "opposition", "ordinary", "organize", "orientation", "origin", "outcome",
  "outline", "outlook", "output", "overall", "overcome", "overlook", "owe", "pace", "pack", "package",
  "painful", "paint", "painter", "pale", "pan", "panel", "pant", "parking", "participant", "participate",
  "participation", "partnership", "passage", "passenger", "passion", "patch", "pause", "payment", "peak", "peer",
  "penalty", "pepper", "per", "perceive", "percentage", "perception", "perfectly", "perform", "permanent", "permission",
  "permit", "personality", "personnel", "perspective", "persuade", "pet", "phase", "phenomenon", "philosophy", "photo",
  "photographer", "phrase", "physician", "piano", "pick", "pie", "pile", "pilot", "pin", "pioneer",
  "pipe", "pitch", "plane", "planet", "planning", "platform", "plenty", "plot", "plus", "pm",
  "poetry", "pole", "politician", "politics", "poll", "pollution", "pop", "porch", "port", "portion",
  "portrait", "portray", "pose", "possess", "possibly", "post", "pot", "potato", "pound", "pour",
  "poverty", "powder", "pray", "prayer", "precisely", "predict", "prefer", "preference", "pregnancy", "pregnant",
  "preparation", "prepare", "presentation", "preserve", "presidential", "press", "pretend", "pretty", "prevent", "pride",
  "priest", "primarily", "primary", "prime", "principal", "print", "priority", "prisoner", "privacy", "proceed",
  "produce", "producer", "product", "prominent", "promote", "promotion", "prompt", "proof", "proper", "proportion",
  "proposal", "propose", "proposed", "prosecutor", "prospect", "protect", "protein", "protest", "proud", "prove",
  "provider", "province", "provision", "psychological", "psychologist", "psychology", "publication", "publish", "publisher", "punch",
  "purchase", "pure", "pursue", "push", "qualify", "quarterback", "quietly", "quit", "quote", "racial",
  "radical", "rail", "rain", "rank", "rapid", "rare", "rarely", "rating", "ratio", "raw",
  "react", "realize", "reasonable", "reasonably", "recall", "receive", "recipe", "recognition", "recognize", "recommend",
  "recommendation", "recording", "recover", "recovery", "recruit", "reduce", "refer", "reference", "reflect", "reflection",
  "reform", "refugee", "refuse", "regard", "regarding", "regardless", "regime", "regional", "register", "regulate",
  "regulation", "regulator", "regulatory", "reinforce", "reject", "relate", "relation", "relax", "release", "relevant",
  "reliability", "reliable", "relief", "reluctant", "rely", "remarkable", "remind", "remote", "removal", "remove",
  "repeat", "repeatedly", "replace", "reply", "reporter", "represent", "representation", "republican", "reputation", "requirement",
  "researcher", "resemble", "reservation", "resident", "resist", "resistance", "resolution", "resolve", "resort", "respect",
  "respond", "respondent", "restore", "restriction", "retain", "retire", "retirement", "reveal", "revenue", "review",
  "rhythm", "rice", "rich", "rid", "ride", "rifle", "rise", "roll", "roof", "root",
  "rope", "rose", "roughly", "route", "routine", "row", "rub", "rush", "sad", "safe",
  "sake", "salad", "salary", "sales", "salt", "sanction", "sand", "satellite", "satisfaction", "satisfy",
  "sauce", "save", "saving", "say", "scandal", "scared", "scenario", "schedule", "scheme", "scholar",
  "scholarship", "scope", "scream", "screen", "script", "secret", "secretary", "secure", "seed", "seek",
  "segment", "seize", "select", "senior", "sentence", "sequence", "session", "settle", "settlement", "several",
  "severe", "shade", "shadow", "shake", "sheet", "shelf", "shell", "shelter", "shift", "shine",
  "ship", "shirt", "shit", "shock", "shoe", "shoot", "shooting", "shop", "shopping", "shore",
  "shortly", "shout", "shower", "shrug", "shut", "sick", "sigh", "sight", "signal", "silent",
  "silly", "similarly", "sin", "sing", "sink", "sir", "ski", "sky", "slave", "slice",
  "slide", "slight", "smart", "smell", "smoke", "snap", "so-called", "soccer", "solar", "solid",
  "solve", "somehow", "sophisticated", "soul", "soup", "southern", "spare", "speaker", "specialist", "speed",
  "spin", "spiritual", "split", "spokesman", "spread", "squeeze", "stability", "stable", "stake", "stare",
  "statistics", "steady", "steal", "steel", "stick", "stir", "stomach", "storage", "storm", "strange",
  "stream", "strengthen", "stretch", "strike", "string", "strip", "stroke", "struggle", "studio", "stupid",
  "submit", "subsequent", "substance", "substantial", "succeed", "sudden", "sue", "suffer", "sufficient", "sugar",
  "suggestion", "suicide", "suit", "summit", "super", "supply", "supporter", "suppose", "supreme", "surely",
  "surgery", "surprised", "surprisingly", "surround", "survival", "survive", "survivor", "suspect", "sustain", "swear",
  "sweep", "swim", "swing", "switch", "symptom", "syndrome", "tackle", "tactic", "tail", "tale",
  "talent", "talk", "tank", "tap", "tape", "taste", "taxpayer", "teach", "teaching", "tear",
  "teaspoon", "teen", "teenager", "telephone", "telescope", "temporary", "tend", "tendency", "tennis", "tension",
  "tent", "terms", "territory", "terror", "terrorism", "terrorist", "testify", "testimony", "testing", "than",
  "theater", "theme", "therapy", "threaten", "throat", "throw", "thumb", "ticket", "tie", "tight",
  "tiny", "tip", "tire", "tired", "tissue", "tobacco", "toe", "tomato", "tongue", "too",
  "tooth", "toss", "tough", "tourist", "tournament", "tower", "toy", "trace", "tragedy", "trail",
  "train", "transfer", "transform", "transformation", "transition", "translate", "transportation", "trap", "trash", "treat",
  "treaty", "tremendous", "tribe", "trick", "troop", "tube", "tunnel", "tv", "twin", "ugly",
  "ultimate", "ultimately", "unable", "uncle", "undergo", "unique", "universal", "universe", "unknown", "unlike",
  "unlikely", "unusual", "upper", "urge", "useful", "usual", "utility", "utilize", "vacation", "valley",
  "valuable", "variable", "variation", "vast", "vegetable", "vehicle", "venture", "versus", "vessel", "veteran",
  "via", "victory", "viewer", "violent", "virtue", "visible", "visual", "vital", "volunteer", "voter",
  "vulnerable", "wage", "wake", "wander", "ward", "warm", "warn", "warning", "wash", "waste",
  "wave", "weak", "wealth", "weapon", "wear", "weave", "wedding", "weekly", "weigh", "welfare",
  "western", "wheel", "whenever", "whisper", "wild", "wine", "wing", "winner", "wipe", "wire",
  "wisdom", "wise", "wish", "withdraw", "witness", "wonder", "wooden", "workshop", "worry", "worth",
  "wound", "wrap", "yard", "yell", "yield", "yours", "zone"]

/-- Embedding of `KEYBOARD_ADJACENT` (src/shared/dictionary.ts:617-644); lookup of a
missing key yields `[]` (the `|| []` in the source). -/
def KEYBOARD_ADJACENT (c : Char) : List Char :=
  match c with
  | 'a' => ['q', 'w', 's', 'z']
  | 'b' => ['v', 'g', 'h', 'n']
  | 'c' => ['x', 'd', 'f', 'v']
  | 'd' => ['s', 'e', 'r', 'f', 'c', 'x']
  | 'e' => ['w', 's', 'd', 'r']
  | 'f' => ['d', 'r', 't', 'g', 'v', 'c']
  | 'g' => ['f', 't', 'y', 'h', 'b', 'v']
  | 'h' => ['g', 'y', 'u', 'j', 'n', 'b']
  | 'i' => ['u', 'j', 'k', 'o']
  | 'j' => ['h', 'u', 'i', 'k', 'm', 'n']
  | 'k' => ['j', 'i', 'o', 'l', 'm']
  | 'l' => ['k', 'o', 'p']
  | 'm' => ['n', 'j', 'k']
  | 'n' => ['b', 'h', 'j', 'm']
  | 'o' => ['i', 'k', 'l', 'p']
  | 'p' => ['o', 'l']
  | 'q' => ['w', 'a']
  | 'r' => ['e', 'd', 'f', 't']
  | 's' => ['a', 'w', 'e', 'd', 'z', 'x']
  | 't' => ['r', 'f', 'g', 'y']
  | 'u' => ['y', 'h', 'j', 'i']
  | 'v' => ['c', 'f', 'g', 'b']
  | 'w' => ['q', 'a', 's', 'e']
  | 'x' => ['z', 's', 'd', 'c']
  | 'y' => ['t', 'g', 'h', 'u']
  | 'z' => ['a', 's', 'x']
  | _ => []

/-- Loop body of `isAdjacentKeyTypo` (src/shared/dictionary.ts:680-696):
walk both words, counting differing positions; bail out on a second
difference or a non-adjacent pair. -/
def isAdjacentGo : List Char → List Char → Nat → Bool
  | [], [], diffCount => diffCount == 1
  | a :: as, b :: bs, diffCount =>
    if a == b then isAdjacentGo as bs diffCount
    else if diffCount + 1 > 1 then false
    else if !(KEYBOARD_ADJACENT a.toLower).contains b.toLower then false
    else isAdjacentGo as bs (diffCount + 1)
  | _, _, _ => false

/-- Embedding of `isAdjacentKeyTypo` (src/shared/dictionary.ts:680-696). -/
def isAdjacentKeyTypo (word candidate : String) : Bool :=
  if word.length != candidate.length then false
  else isAdjacentGo word.data candidate.data 0

/-- Stable insertion of `x` into `l`: before the first element `y` with
`le x y`.  Helper for `sortByLE`. -/
def stableInsert (le : α → α → Bool) (x : α) : List α → List α
  | [] => [x]
  | y :: ys => if le x y then x :: y :: ys else y :: stableInsert le x ys

/-- Stable sort by the boolean relation `le` (insertion sort).  JS
`Array.prototype.sort` is specified to be stable, and a stable sort for a
total preorder comparator has a unique result, so this computes exactly
what `candidates.sort((a, b) => a.score - b.score)` does. -/
def sortByLE (le : α → α → Bool) : List α → List α
  | [] => []
  | x :: xs => stableInsert le x (sortByLE le xs)

/-- Fallible map (a JS `.map` whose callback can
throw): `none` as soon as the body fails on some element. -/
def optionMapM (f : α → Option β) : List α → Option (List β)
  | [] => some []
  | x :: xs =>
    match f x with
    | none => none
    | some y =>
      match optionMapM f xs with
      | none => none
      | some ys => some (y :: ys)

/-- The capitalisation step of `getSuggestions`
(`c.word.charAt(0).toUpperCase() + c.word.slice(1)`); on the empty string
both pieces are empty. -/
def capitalizeFirst (s : String) : String :=
  match s.data with
  | [] => ""
  | c :: cs => ⟨Char.toUpper c :: cs⟩

/-- Embedding of `getSuggestions` (src/shared/dictionary.ts:701-736).

Scores are `distance` or `distance − 0.5`; we store `2·score` as a `Nat`
(`2·distance`, minus 1 for an adjacent-key typo) — an order-isomorphic
encoding of the JS floats.  `Array.prototype.sort` with the comparator
`a.score - b.score` is stable, modelled by `mergeSort`.  The final `map`
evaluates `word[0].toUpperCase()`; on the empty input word `word[0]` is
`undefined` and the call throws, modelled by `Option` (the `mapM` returns
`none` exactly when the callback would run on an empty `word`). -/
def getSuggestions (word : String) (dictionary : List String)
    (maxSuggestions : Nat := 5) : Option (List String) :=
  let lowerWord := jsToLower word
  let candidates : List (String × Nat) :=
    dictionary.filterMap fun dictWord =>
      if ((dictWord.length : Int) - (lowerWord.length : Int)).natAbs > 2 then none
      else
        let distance := levenshteinDistance lowerWord dictWord
        if distance ≤ 2 then
          let isAdjacent := isAdjacentKeyTypo lowerWord dictWord
          some (dictWord, 2 * distance - (if isAdjacent then 1 else 0))
        else none
  let sorted := sortByLE (fun a b => decide (a.2 ≤ b.2)) candidates
  optionMapM
    (fun c =>
      match word.data with
      | [] => none
      | w0 :: _ => some (if w0 = Char.toUpper w0 then capitalizeFirst c.1 else c.1))
    (sorted.take maxSuggestions)

/-- Regex `^\d+$` (src/shared/dictionary.ts:754). -/
def regexAllDigits (word : String) : Bool :=
  !word.data.isEmpty && word.data.all (·.isDigit)

/-- Regex `^[a-z]+\d+$` with the `i` flag (src/shared/dictionary.ts:757): one or
more ASCII letters followed by one or more digits.  Letters and digits are
disjoint, so the greedy regex is equivalent to this split. -/
def regexLettersDigits (word : String) : Bool :=
  let ls := word.data.takeWhile Char.isAlpha
  let ds := word.data.drop ls.length
  !ls.isEmpty && !ds.isEmpty && ds.all (·.isDigit)

/-- Embedding of `isWordCorrect` (src/shared/dictionary.ts:741-760). -/
def isWordCorrect (word : String) (customDictionary : List String) : Bool :=
  let lowerWord := jsToLower word
  if ENGLISH_WORDS.contains lowerWord then true
  else if customDictionary.contains lowerWord then true
  else if word == jsToUpper word && word.length ≤ 5 then true
  else if regexAllDigits word then true
  else if regexLettersDigits word then true
  else false

/-! ## Tokenizer and aggregator (src/shared/dictionary.ts:765-820) -/

/-- A character matched by the token regex (ASCII letters and the apostrophe). -/
def isWordRunChar (c : Char) : Bool := c.isAlpha || c == '\x27'

/-- Single pass of `regex.exec` over the text: produce every maximal run of
letter-or-apostrophe characters with its half-open index range.  The third
argument carries the run in progress (characters reversed, start index). -/
def runsAux : List Char → Nat → Option (List Char × Nat) → List (String × Nat × Nat)
  | [], _, none => []
  | [], _, some (run, s) => [(⟨run.reverse⟩, s, s + run.length)]
  | c :: rest, i, none =>
    if isWordRunChar c then runsAux rest (i + 1) (some ([c], i))
    else runsAux rest (i + 1) none
  | c :: rest, i, some (run, s) =>
    if isWordRunChar c then runsAux rest (i + 1) (some (c :: run, s))
    else (⟨run.reverse⟩, s, s + run.length) :: runsAux rest (i + 1) none

/-- Embedding of `extractWords` (src/shared/dictionary.ts:765-791): tokens are maximal
maximal letter-or-apostrophe runs, skipping single letters other than `i`/`a` and
all-apostrophe runs. -/
def extractWords (text : String) : List (String × Nat × Nat) :=
  (runsAux text.data 0 none).filter fun t =>
    let word := t.1
    !(word.length == 1 && !(jsToLower word == "i") && !(jsToLower word == "a")) &&
    !((word.data.filter fun c => !(c == '\x27')).isEmpty)

/-- A flagged span (`Misspelling` in src/shared/types.ts:34-43). -/
structure Misspelling where
  word : String
  startIndex : Nat
  endIndex : Nat
  suggestions : List String
deriving DecidableEq

/-- JS `new Set([...])`: deduplicate keeping first occurrences. -/
def jsSetList (l : List String) : List String :=
  l.foldl (fun acc w => if acc.contains w then acc else acc ++ [w]) []

/-- Embedding of `findMisspellings` (src/shared/dictionary.ts:796-820).  The tokens
produced by `extractWords` are never empty, so the `getSuggestions` call
inside never throws; `.getD []` is the value it returns in that case. -/
def findMisspellings (text : String) (customDictionary : List String := []) :
    List Misspelling :=
  let words := extractWords text
  let fullDictionary := jsSetList (ENGLISH_WORDS ++ customDictionary)
  words.filterMap fun t =>
    if !isWordCorrect t.1 customDictionary then
      some { word := t.1, startIndex := t.2.1, endIndex := t.2.2,
             suggestions := (getSuggestions t.1 fullDictionary).getD [] }
    else none

/-! ## Grammar heuristics (src/shared/grammar.ts)

Each rule is a global case-insensitive regex `\b(alt₁|alt₂|…)\b` over the
text plus a `check` function inspecting fixed windows around the match.
`scanMatches` reproduces `String.prototype.matchAll`: scan left to right,
at each position try the alternatives in order (a literal alternative
matches only if followed by a word boundary), record the match and resume
at its end.  The fuel argument (initially `text.length + 1`) makes the
recursion structural; one character is consumed per step, so it never
runs out. -/

/-- A grammar error (src/shared/grammar.ts:14-20). -/
structure GrammarError where
  word : String
  startIndex : Nat
  endIndex : Nat
  suggestion : String
  rule : String
deriving DecidableEq

/-- JS regex `\w`. -/
def isJsWordChar (c : Char) : Bool := c.isAlpha || c.isDigit || c == '_'

/-- Case-insensitive literal match of `alt` at the head of `l`. -/
def matchCI : List Char → List Char → Bool
  | [], _ => true
  | _ :: _, [] => false
  | a :: as, c :: cs => (Char.toLower c == Char.toLower a) && matchCI as cs

/-- The word boundary `\b` after a literal ending in a word character. -/
def boundaryAfterOk : List Char → Bool
  | [] => true
  | c :: _ => !isJsWordChar c

/-- Try the alternatives in order at the current position; return the
length of the first that matches and is followed by a word boundary
(regex backtracking over a literal alternation). -/
def altsMatchAt (alts : List String) (l : List Char) : Option Nat :=
  alts.findSome? fun alt =>
    if matchCI alt.data l && boundaryAfterOk (l.drop alt.data.length) then
      some alt.data.length
    else none

/-- The `matchAll` scan for `\b(alt₁|…)\b` with the `g` flag: `prevWord` says
whether the previous character was a word character (so `\b` holds at the
current position iff `!prevWord`; every alternative starts and ends with a
word character). -/
def scanMatches (alts : List String) : Nat → List Char → Nat → Bool → List (String × Nat)
  | 0, _, _, _ => []
  | _ + 1, [], _, _ => []
  | fuel + 1, c :: rest, i, prevWord =>
    if prevWord then scanMatches alts fuel rest (i + 1) (isJsWordChar c)
    else
      match altsMatchAt alts (c :: rest) with
      | some len =>
        (⟨(c :: rest).take len⟩, i) ::
          scanMatches alts fuel ((c :: rest).drop len) (i + len) true
      | none => scanMatches alts fuel rest (i + 1) (isJsWordChar c)

/-- All matches of `\b(alt₁|…)\b/gi` in `text`, with their indices. -/
def jsMatchAll (alts : List String) (text : String) : List (String × Nat) :=
  scanMatches alts (text.data.length + 1) text.data 0 false

/-- JS `String.prototype.substring` for `a ≤ b` (clamped to the length). -/
def jsSubstring (s : String) (a b : Nat) : String := ⟨(s.data.take b).drop a⟩

/-- Regex `^(w₁|w₂|…)` on `s`: does `s` start with one of the words? -/
def startsWithAnyOf (s : String) (ws : List String) : Bool :=
  ws.any fun w => charsLeading w.data s.data

/-- Regex `^(w₁|w₂|…)\b` on `s`: a word prefix followed by a boundary. -/
def startsWithAnyWordB (s : String) (ws : List String) : Bool :=
  ws.any fun w => charsLeading w.data s.data && boundaryAfterOk (s.data.drop w.data.length)

/-- Unanchored search for `(w₁|…)\s+target\b` in `l` (used by the
then/than rule).  `\s+` is equivalent to "all following whitespace, at
least one character" since `target` starts with a non-space character. -/
def searchWordsSpaceTarget (ws : List String) (target : String) : List Char → Bool
  | [] => false
  | c :: rest =>
    (ws.any fun w =>
      charsLeading w.data (c :: rest) &&
        (let l2 := (c :: rest).drop w.data.length
         let sp := l2.takeWhile jsIsSpace
         !sp.isEmpty && charsLeading target.data (l2.drop sp.length) &&
           boundaryAfterOk ((l2.drop sp.length).drop target.data.length))) ||
      searchWordsSpaceTarget ws target rest

/-- Unanchored search for `(,|;)\s*to\s+also` (the to/too rule). -/
def searchCommaToAlso : List Char → Bool
  | [] => false
  | c :: rest =>
    ((c == ',' || c == ';') &&
      (let l1 := rest.dropWhile jsIsSpace
       charsLeading "to".data l1 &&
         (let l2 := l1.drop 2
          let sp := l2.takeWhile jsIsSpace
          !sp.isEmpty && charsLeading "also".data (l2.drop sp.length)))) ||
      searchCommaToAlso rest

/-- The their/there rule check (src/shared/grammar.ts:30-58): every
branch of the source returns `null` (the source comments that flagging
these yields too many false positives), so the check is constantly
`none`. -/
def checkTheirRule (_word : String) (_index : Nat) (_context : String) :
    Option GrammarError := none

/-- The your rule check (src/shared/grammar.ts:61-93).  `after` is the
10-character window starting right after the match. -/
def checkYourRule (word : String) (index : Nat) (context : String) :
    Option GrammarError :=
  let lower := jsToLower word
  let after := jsToLower (jsSubstring context (index + word.length) (index + word.length + 10))
  if (lower == "your" || lower == "youre") &&
      startsWithAnyOf after
        ["going", "doing", "sure", "right", "wrong", "here", "there", "welcome", "ready"] then
    some { word := word, startIndex := index, endIndex := index + word.length,
           suggestion := "you\x27re",
           rule := "Use \x27you\x27re\x27 (you are) before verbs/adjectives" }
  else if lower == "you\x27re" &&
      startsWithAnyWordB after
        ["name", "book", "car", "house", "idea", "way", "best", "first", "last", "new", "old"] then
    some { word := word, startIndex := index, endIndex := index + word.length,
           suggestion := "your",
           rule := "Use \x27your\x27 (possessive) before nouns" }
  else none

/-- The its rule check (src/shared/grammar.ts:96-128). -/
def checkItsRule (word : String) (index : Nat) (context : String) :
    Option GrammarError :=
  let lower := jsToLower word
  let after := jsToLower (jsSubstring context (index + word.length) (index + word.length + 10))
  if lower == "its" &&
      startsWithAnyWordB after
        ["going", "doing", "not", "is", "was", "will", "can", "should", "has", "had", "been", "being"] then
    some { word := word, startIndex := index, endIndex := index + word.length,
           suggestion := "it\x27s",
           rule := "Use \x27it\x27s\x27 (it is) before verbs" }
  else if lower == "it\x27s" &&
      startsWithAnyWordB after
        ["name", "book", "car", "house", "idea", "way", "best", "first", "last", "new", "old", "own"] then
    some { word := word, startIndex := index, endIndex := index + word.length,
           suggestion := "its",
           rule := "Use \x27its\x27 (possessive) before nouns" }
  else none

/-- The to/too/two check (src/shared/grammar.ts:131-159).  The second
branch ("two" before counted nouns) returns `null` in the source
("context needed - skip for now"), as does the fall-through. -/
def checkToRule (word : String) (index : Nat) (context : String) :
    Option GrammarError :=
  let lower := jsToLower word
  let before := jsToLower (jsSubstring context (index - 10) index)
  let after := jsToLower (jsSubstring context (index + word.length) (index + word.length + 10))
  if lower == "to" &&
      (startsWithAnyWordB after ["also", "much", "many", "big", "small", "fast", "slow"] ||
        searchCommaToAlso (before ++ word ++ after).data) then
    some { word := word, startIndex := index, endIndex := index + word.length,
           suggestion := "too",
           rule := "Use \x27too\x27 for \x27also\x27 or \x27excessive\x27" }
  else none

/-- The then/than check (src/shared/grammar.ts:162-193).  `before` is the
10-character window ending at the match; the searched string is
`before + word` with `word` in its original (not lowercased) form. -/
def checkThenRule (word : String) (index : Nat) (context : String) :
    Option GrammarError :=
  let lower := jsToLower word
  let before := jsToLower (jsSubstring context (index - 10) index)
  if lower == "then" &&
      searchWordsSpaceTarget
        ["more", "less", "better", "worse", "bigger", "smaller", "faster", "slower",
         "older", "younger", "taller", "shorter"] "then" (before ++ word).data then
    some { word := word, startIndex := index, endIndex := index + word.length,
           suggestion := "than",
           rule := "Use \x27than\x27 for comparisons" }
  else if lower == "than" &&
      searchWordsSpaceTarget
        ["if", "when", "after", "before", "first", "next", "now"] "than"
        (before ++ word).data then
    some { word := word, startIndex := index, endIndex := index + word.length,
           suggestion := "then",
           rule := "Use \x27then\x27 for time sequence" }
  else none

/-- Embedding of `GRAMMAR_RULES` (src/shared/grammar.ts:25-195): pattern alternatives
plus check function, in source order. -/
def GRAMMAR_RULES : List (List String × (String → Nat → String → Option GrammarError)) :=
  [(["their", "there", "they\x27re"], checkTheirRule),
   (["your", "you\x27re", "youre"], checkYourRule),
   (["its", "it\x27s"], checkItsRule),
   (["to", "too", "two"], checkToRule),
   (["then", "than"], checkThenRule)]

/-- Embedding of `findGrammarErrors` (src/shared/grammar.ts:200-214): for each rule in
order, run its pattern over the whole text and keep the non-null check
results. -/
def findGrammarErrors (text : String) : List GrammarError :=
  GRAMMAR_RULES.foldl
    (fun errors rule =>
      errors ++ (jsMatchAll rule.1 text).filterMap fun m => rule.2 m.1 m.2 text)
    []

/-- Embedding of `grammarErrorToMisspelling` (src/shared/grammar.ts:219-226). -/
def grammarErrorToMisspelling (e : GrammarError) : Misspelling :=
  { word := e.word, startIndex := e.startIndex, endIndex := e.endIndex,
    suggestions := [e.suggestion] }

/-! ## Storage utilities (src/shared/storage.ts, src/shared/types.ts) -/

/-- Embedding of `GlobalSettings` (src/shared/types.ts:8-17): note it declares exactly
four members — `enabled`, `showUnderlines`, `language`,
`disabledPatterns`. -/
structure GlobalSettings where
  enabled : Bool
  showUnderlines : Bool
  language : String
  disabledPatterns : List String
deriving DecidableEq

/-- Embedding of `DEFAULT_GLOBAL_SETTINGS` (src/shared/types.ts:151-156). -/
def DEFAULT_GLOBAL_SETTINGS : GlobalSettings :=
  { enabled := true, showUnderlines := true, language := "en-US", disabledPatterns := [] }

/-- What `chrome.storage.sync` may hold under the `globalSettings` key: a
partial record (the options page also writes `autoCorrect` /
`grammarCheck` into it, although `GlobalSettings` does not declare them).
A missing stored object is the all-`none` record. -/
structure StoredGlobalSettings where
  enabled : Option Bool := none
  showUnderlines : Option Bool := none
  language : Option String := none
  disabledPatterns : Option (List String) := none
  autoCorrect : Option Bool := none
  grammarCheck : Option Bool := none
deriving DecidableEq

/-- The JS object produced by
`{ ...DEFAULT_GLOBAL_SETTINGS, ...result[STORAGE_KEYS.GLOBAL_SETTINGS] }`:
the four declared members are always present; `autoCorrect` and
`grammarCheck` are present only if storage held them (`none` models the
member being `undefined`). -/
structure GlobalSettingsJS where
  enabled : Bool
  showUnderlines : Bool
  language : String
  disabledPatterns : List String
  autoCorrect : Option Bool
  grammarCheck : Option Bool
deriving DecidableEq

/-- Embedding of `getGlobalSettings` (src/shared/storage.ts:22-25): spread the stored
partial record over `DEFAULT_GLOBAL_SETTINGS`. -/
def getGlobalSettings (stored : StoredGlobalSettings) : GlobalSettingsJS :=
  { enabled := stored.enabled.getD DEFAULT_GLOBAL_SETTINGS.enabled,
    showUnderlines := stored.showUnderlines.getD DEFAULT_GLOBAL_SETTINGS.showUnderlines,
    language := stored.language.getD DEFAULT_GLOBAL_SETTINGS.language,
    disabledPatterns := stored.disabledPatterns.getD DEFAULT_GLOBAL_SETTINGS.disabledPatterns,
    autoCorrect := stored.autoCorrect,
    grammarCheck := stored.grammarCheck }

/-- Embedding of `SiteSettings` (src/shared/types.ts:20-23). -/
structure SiteSettings where
  enabled : Bool
deriving DecidableEq

/-- Embedding of `DictionaryEntry` (src/shared/types.ts:26-31). -/
structure DictionaryEntry where
  word : String
  addedAt : Nat
deriving DecidableEq

/-- The `for (const word of words)` loop of `importDictionary`
(src/shared/storage.ts:123-144): push each normalized new word onto the
entry array and the `existingWords` set, counting additions. -/
def importLoop (now : Nat) :
    List String → List DictionaryEntry → List String → Nat →
      List DictionaryEntry × Nat
  | [], entries, _, addedCount => (entries, addedCount)
  | word :: words, entries, existingWords, addedCount =>
    let normalized := jsTrim (jsToLower word)
    if !(normalized == "") && !existingWords.contains normalized then
      importLoop now words (entries ++ [{ word := normalized, addedAt := now }])
        (existingWords ++ [normalized]) (addedCount + 1)
    else importLoop now words entries existingWords addedCount

/-- Embedding of `importDictionary` (src/shared/storage.ts:123-144); `now` stands for
`Date.now()`.  Returns the updated entry array and the number of words
added. -/
def importDictionary (entries : List DictionaryEntry) (words : List String)
    (now : Nat) : List DictionaryEntry × Nat :=
  importLoop now words entries (entries.map fun e => jsToLower e.word) 0

/-- Embedding of `exportDictionary` (src/shared/storage.ts:149-152). -/
def exportDictionary (entries : List DictionaryEntry) : List String :=
  entries.map fun e => e.word

/-- One element of the regex translated from a host-disable pattern:
every character is escaped to a literal except `*`, which becomes `.*`. -/
inductive GlobElem
  | star
  | lit (c : Char)
deriving DecidableEq

/-- The glob-to-regex translation of `matchesDisabledPattern`
(src/shared/storage.ts:169-171): escape everything, turn `*` into `.*`. -/
def toGlob (pattern : String) : List GlobElem :=
  pattern.data.map fun c => if c = '*' then GlobElem.star else GlobElem.lit c

/-- Matching of the anchored regex `^…$` built from a glob, with explicit
fuel to keep the recursion structural (each step shrinks pattern+input, so
`|pattern| + |input| + 1` fuel always suffices). -/
def globMatchF : Nat → List GlobElem → List Char → Bool
  | 0, _, _ => false
  | _ + 1, [], [] => true
  | _ + 1, [], _ :: _ => false
  | f + 1, GlobElem.star :: ps, s =>
    globMatchF f ps s ||
      (match s with
       | [] => false
       | _ :: rest => globMatchF f (GlobElem.star :: ps) rest)
  | _ + 1, GlobElem.lit _ :: _, [] => false
  | f + 1, GlobElem.lit c :: ps, d :: s => c == d && globMatchF f ps s

/-- Embedding of `matchesDisabledPattern` (src/shared/storage.ts:165-176; the copy in
src/content/content.ts:129-137 is identical).  The `i` regex flag is
modelled by lowercasing both sides. -/
def matchesDisabledPattern (hostname : String) (patterns : List String) : Bool :=
  patterns.any fun pattern =>
    let g := toGlob (jsToLower pattern)
    let h := (jsToLower hostname).data
    globMatchF (g.length + h.length + 1) g h

/-! ## Content script (src/content/content.ts)

The DOM, timers and the statistics counters are outside the embedding;
`FieldState` keeps the two fields that carry the analysis state
(`lastText`, `misspellings`), and `performSpellCheck` / `ignoreWord`
are modelled as pure state transitions. -/

/-- The element kinds distinguished by `isEditableField`
(src/content/content.ts:146-176): an `<input>` with its `type`, a
`<textarea>`, or any other element with its `isContentEditable` flag. -/
inductive ElemKind
  | input (ty : String)
  | textarea
  | other (contentEditable : Bool)
deriving DecidableEq

/-- The attributes read by `isSensitiveField`
(src/content/content.ts:181-216).  `getAttribute` returns `null` for a
missing attribute (`none`); `element.id` is always a string. -/
structure JSElement where
  kind : ElemKind
  autocomplete : Option String
  name : Option String
  id : String
  placeholder : Option String
deriving DecidableEq

/-- The `sensitiveAutocomplete` list (src/content/content.ts:190-193). -/
def sensitiveAutocompleteList : List String :=
  ["off", "new-password", "current-password", "cc-", "credit-card",
   "card-number", "cvv", "cvc", "expiry", "security-code"]

/-- The `sensitivePatterns` list (src/content/content.ts:204-209). -/
def sensitivePatternsList : List String :=
  ["password", "passwd", "pwd", "secret",
   "credit", "card", "cvv", "cvc", "ccv", "expir",
   "ssn", "social", "security",
   "pin", "token", "auth"]

/-- Embedding of `isSensitiveField` (src/content/content.ts:181-216). -/
def isSensitiveField (el : JSElement) : Bool :=
  (match el.kind with
   | ElemKind.input ty => ["password", "hidden"].contains (jsToLower ty)
   | _ => false) ||
  (let autocomplete := (el.autocomplete.map jsToLower).getD ""
   sensitiveAutocompleteList.any fun s => strIncludes autocomplete s) ||
  (let name := (el.name.map jsToLower).getD ""
   let id := jsToLower el.id
   let placeholder := (el.placeholder.map jsToLower).getD ""
   let combined := name ++ " " ++ id ++ " " ++ placeholder
   sensitivePatternsList.any fun p => strIncludes combined p)

/-- Embedding of `isEditableField` (src/content/content.ts:146-176): a text-like input,
a textarea, or a content-editable element, and never a sensitive field. -/
def isEditableField (el : JSElement) : Bool :=
  match el.kind with
  | ElemKind.input ty =>
    ["text", "search", "email", "url"].contains (jsToLower ty) && !isSensitiveField el
  | ElemKind.textarea => !isSensitiveField el
  | ElemKind.other contentEditable => contentEditable && !isSensitiveField el

/-- Every call site of `attachToField` (`scanForEditableFields`,
`scanShadowDOM`, `scanIframes`, the mutation observer — content.ts:221-302
and 1123-1178) guards it with `isEditableField`, so the set of fields the
extension attaches to is the `isEditableField` filter of the candidates. -/
def attachedFields (els : List JSElement) : List JSElement :=
  els.filter isEditableField

/-- The analysis state of `FieldState` (src/content/content.ts:30-36):
last checked text and current flagged spans. -/
structure FieldState where
  lastText : String
  misspellings : List Misspelling
deriving DecidableEq

/-- Embedding of `isEnabled` (src/content/content.ts:85-87). -/
def isEnabled (g : GlobalSettingsJS) (site : SiteSettings) : Bool :=
  g.enabled && site.enabled

/-- Embedding of `performSpellCheck` (src/content/content.ts:457-498): a pure state
transition on one field.  `text` is `getFieldText(state.element)`.  If
checking is disabled only the DOM highlights are cleared — the state is
unchanged; if the text equals `state.lastText` the function returns
without re-filtering (the source comments: skip if text has not
changed).  Otherwise the
misspellings (plus grammar errors when `globalSettings.grammarCheck` is
truthy — an absent member reads as `undefined`, i.e. `false`) are
recomputed and filtered by the session ignore set.  Statistics increments
and highlight rendering are side effects outside the state. -/
def performSpellCheck (g : GlobalSettingsJS) (site : SiteSettings)
    (customDictionaryWords : List String) (ignoredWords : List String)
    (st : FieldState) (text : String) : FieldState :=
  if !(isEnabled g site) || !g.showUnderlines then st
  else if text == st.lastText then st
  else
    let allMisspellings :=
      findMisspellings text customDictionaryWords ++
        (if g.grammarCheck.getD false then
          (findGrammarErrors text).map grammarErrorToMisspelling
        else [])
    { lastText := text,
      misspellings :=
        allMisspellings.filter fun m => !ignoredWords.contains (jsToLower m.word) }

/-- JS `Set.prototype.add`. -/
def jsSetAdd (l : List String) (w : String) : List String :=
  if l.contains w then l else l ++ [w]

/-- Embedding of `ignoreWord` (src/content/content.ts:1083-1090): add the lowercased
word to the session ignore set, then run `performSpellCheck` on every
attached field.  Each field is paired with its current text
(`getFieldText`).  Returns the new ignore set and the new field states. -/
def ignoreWord (g : GlobalSettingsJS) (site : SiteSettings)
    (customDictionaryWords : List String) (word : String)
    (ignoredWords : List String) (fields : List (FieldState × String)) :
    List String × List FieldState :=
  let ignored := jsSetAdd ignoredWords (jsToLower word)
  (ignored,
   fields.map fun fs =>
     performSpellCheck g site customDictionaryWords ignored fs.1 fs.2)

/-! ## Claim theorems -/

/-- C8: `levenshteinDistance` is zero on the diagonal and symmetric: for
every string `s`, `levenshteinDistance s s = 0`, and for every pair of
strings `a`, `b`, `levenshteinDistance a b = levenshteinDistance b a`. -/
theorem C8_levenshteinDistance_diag_symm :
    (∀ s : String, levenshteinDistance s s = 0) ∧
      (∀ a b : String, levenshteinDistance a b = levenshteinDistance b a) := by
  constructor
  · intro s
    rw [levenshteinDistance_eq_lev, lev_self]
  · intro a b
    rw [levenshteinDistance_eq_lev, levenshteinDistance_eq_lev,
      lev_symm a.data.reverse b.data.reverse]

/-- C4: `matchesDisabledPattern` translates patterns to anchored regexes
(literals escaped, `*` = any sequence) and matches case-insensitively
against the whole hostname: `*.example.com` matches `sub.example.com`
(and deeper subdomains, in either case, with either case of pattern) but
not `example.com`, and a pattern that is merely a substring of the
hostname does not match. -/
theorem C4_matchesDisabledPattern_glob :
    matchesDisabledPattern "sub.example.com" ["*.example.com"] = true ∧
      matchesDisabledPattern "example.com" ["*.example.com"] = false ∧
      matchesDisabledPattern "SUB.EXAMPLE.COM" ["*.example.com"] = true ∧
      matchesDisabledPattern "sub.example.com" ["*.EXAMPLE.COM"] = true ∧
      matchesDisabledPattern "deep.sub.example.com" ["*.example.com"] = true ∧
      matchesDisabledPattern "example.com" ["example"] = false ∧
      matchesDisabledPattern "exampleXcom" ["example.com"] = false :=
  ⟨by decide, by decide, by decide, by decide, by decide, by decide, by decide⟩

/-- C2 (evaluation at the failing inputs): the your rule and the its
rule of `GRAMMAR_RULES` never fire — their context window `after` starts
with the boundary character right after the matched word, while their
check regexes are anchored `^(…)`, so `findGrammarErrors` returns `[]` on
clear confusions in all four directions.  Only the then/than rule fires
(both directions).  Every produced error carries exactly one suggested
replacement. -/
theorem C2_grammar_rules_dead_and_live :
    findGrammarErrors "your going to the store" = [] ∧
      findGrammarErrors "you\x27re name is long" = [] ∧
      findGrammarErrors "its going to rain" = [] ∧
      findGrammarErrors "it\x27s name is Rex" = [] ∧
      ((findGrammarErrors "more then ever").map fun e => (e.word, e.suggestion)) =
        [("then", "than")] ∧
      ((findGrammarErrors "if than you go").map fun e => (e.word, e.suggestion)) =
        [("than", "then")] ∧
      ∀ e : GrammarError, (grammarErrorToMisspelling e).suggestions.length = 1 :=
  ⟨by decide, by decide, by decide, by decide, by decide, by decide, fun _ => rfl⟩

/-- C3 (counterexample): when storage holds no value, the record returned
by `getGlobalSettings` does not contain `autoCorrect` or `grammarCheck`
(they are `undefined`, not booleans defaulted from
`DEFAULT_GLOBAL_SETTINGS` — which has no such members). -/
theorem C3_getGlobalSettings_missing_flags :
    (getGlobalSettings {}).autoCorrect = none ∧
      (getGlobalSettings {}).grammarCheck = none :=
  ⟨rfl, rfl⟩

/-- C3 (amended): for every stored-settings state, `getGlobalSettings`
returns a record that always contains the four declared fields `enabled`,
`showUnderlines`, `language` and `disabledPatterns`, each defaulting from
`DEFAULT_GLOBAL_SETTINGS` when storage has no value, while `autoCorrect`
and `grammarCheck` are present exactly when storage holds them. -/
theorem C3_getGlobalSettings_fields (stored : StoredGlobalSettings) :
    (getGlobalSettings stored).enabled
        = stored.enabled.getD DEFAULT_GLOBAL_SETTINGS.enabled ∧
      (getGlobalSettings stored).showUnderlines
        = stored.showUnderlines.getD DEFAULT_GLOBAL_SETTINGS.showUnderlines ∧
      (getGlobalSettings stored).language
        = stored.language.getD DEFAULT_GLOBAL_SETTINGS.language ∧
      (getGlobalSettings stored).disabledPatterns
        = stored.disabledPatterns.getD DEFAULT_GLOBAL_SETTINGS.disabledPatterns ∧
      (getGlobalSettings stored).autoCorrect = stored.autoCorrect ∧
      (getGlobalSettings stored).grammarCheck = stored.grammarCheck :=
  ⟨rfl, rfl, rfl, rfl, rfl, rfl⟩

/-- C1 (evaluation at the failing input): with default settings, checking
a fresh field on the text `"Teh"` flags the span `("Teh", 0, 3)`; after
`ignoreWord "Teh"` the ignore set holds `"teh"`, yet the field — whose
text is unchanged, so `performSpellCheck` returns at the
`text === state.lastText` guard — still has a flagged span whose word
lowercases to the ignored `"teh"`. -/
theorem C1_ignoreWord_leaves_stale_span :
    (let g := getGlobalSettings {}
     let st1 := performSpellCheck g ⟨true⟩ [] [] ⟨"", []⟩ "Teh"
     let r := ignoreWord g ⟨true⟩ [] "Teh" [] [(st1, "Teh")]
     (st1.misspellings.map fun m => (m.word, m.startIndex, m.endIndex))
         = [("Teh", 0, 3)] ∧
       r.1 = ["teh"] ∧
       (r.2.map fun st => st.misspellings.map fun m => jsToLower m.word)
         = [["teh"]]) :=
  ⟨by decide, by decide, by decide⟩

/-! ### C5 helpers -/

theorem u32_le_iff (a b : UInt32) : a ≤ b ↔ a.toNat ≤ b.toNat := by
  rw [UInt32.le_def, BitVec.le_def]; exact Iff.rfl

theorem u32_lt_iff (a b : UInt32) : a < b ↔ a.toNat < b.toNat := by
  rw [UInt32.lt_def, BitVec.lt_def]; exact Iff.rfl

/-- An ASCII character at most `'Z'` is fixed by `Char.toUpper`. -/
theorem toUpper_eq_self_of_le_Z (c : Char) (h2 : c ≤ 'Z') : Char.toUpper c = c := by
  unfold Char.toUpper
  rw [if_neg]
  rintro ⟨ha, _⟩
  rw [Char.le_def, u32_le_iff] at h2
  simp [Char.toNat] at ha
  have hz : ('Z'.val).toNat = 90 := rfl
  rw [hz] at h2
  omega

/-- Digits are not letters. -/
theorem isAlpha_eq_false_of_isDigit (d : Char) (h : d.isDigit = true) :
    d.isAlpha = false := by
  simp only [Char.isDigit, Bool.and_eq_true, decide_eq_true_eq, ge_iff_le,
    u32_le_iff] at h
  simp only [Char.isAlpha, Char.isUpper, Char.isLower, Bool.or_eq_false_iff,
    Bool.and_eq_false_iff, decide_eq_false_iff_not, not_le, ge_iff_le,
    u32_le_iff, u32_lt_iff]
  have h48 : ((48 : UInt32)).toNat = 48 := rfl
  have h57 : ((57 : UInt32)).toNat = 57 := rfl
  have h65 : ((65 : UInt32)).toNat = 65 := rfl
  have h90 : ((90 : UInt32)).toNat = 90 := rfl
  have h97 : ((97 : UInt32)).toNat = 97 := rfl
  have h122 : ((122 : UInt32)).toNat = 122 := rfl
  rw [h48, h57] at h
  rw [h65, h90, h97, h122]
  omega

theorem map_eq_self_of_mem {f : α → α} :
    ∀ l : List α, (∀ c ∈ l, f c = c) → l.map f = l := by
  intro l
  induction l with
  | nil => intro _; rfl
  | cons x xs ih =>
    intro h
    rw [List.map_cons, h x (List.mem_cons_self x xs),
      ih fun c hc => h c (List.mem_cons_of_mem x hc)]

theorem takeWhile_all_append {p : α → Bool} :
    ∀ (ls : List α) (d : α) (ds : List α), (∀ c ∈ ls, p c = true) → p d = false →
      (ls ++ d :: ds).takeWhile p = ls := by
  intro ls
  induction ls with
  | nil =>
    intro d ds _ hd
    simp [List.takeWhile_cons, hd]
  | cons x xs ih =>
    intro d ds h hd
    rw [List.cons_append, List.takeWhile_cons,
      h x (List.mem_cons_self x xs)]
    rw [ih d ds (fun c hc => h c (List.mem_cons_of_mem x hc)) hd]
    simp

/-- A five-way `if` chain returning `true` in every branch except the
last returns `true` whenever one of the last three conditions holds. -/
theorem ite_chain_true (c1 c2 c3 c4 c5 : Bool)
    (h : c3 = true ∨ c4 = true ∨ c5 = true) :
    (if c1 then true else if c2 then true else if c3 then true
      else if c4 then true else if c5 then true else false) = true := by
  cases c1 <;> cases c2 <;> cases c3 <;> cases c4 <;> cases c5 <;> simp_all

/-- The oracle returns `true` whenever one of its three heuristic checks
holds, whatever the dictionaries contain. -/
theorem isWordCorrect_true_of (word : String) (customDictionary : List String)
    (h : (word == jsToUpper word && word.length ≤ 5) = true ∨
      regexAllDigits word = true ∨ regexLettersDigits word = true) :
    isWordCorrect word customDictionary = true := by
  simp only [isWordCorrect]
  exact ite_chain_true _ _ _ _ _ h

/-- C5: for every custom dictionary, `isWordCorrect` accepts any word of
digits (`^\d+$`), any letters-then-digits word (`^[A-Za-z]+\d+$`), and
any entirely-uppercase word of length at most 5, regardless of
dictionary contents. -/
theorem C5_isWordCorrect_heuristics (word : String) (customDictionary : List String) :
    ((word.data ≠ [] ∧ ∀ c ∈ word.data, c.isDigit = true) →
        isWordCorrect word customDictionary = true) ∧
      ((∃ ls ds, word.data = ls ++ ds ∧ ls ≠ [] ∧ (∀ c ∈ ls, c.isAlpha = true) ∧
          ds ≠ [] ∧ (∀ c ∈ ds, c.isDigit = true)) →
        isWordCorrect word customDictionary = true) ∧
      (((∀ c ∈ word.data, 'A' ≤ c ∧ c ≤ 'Z') ∧ word.length ≤ 5) →
        isWordCorrect word customDictionary = true) := by
  refine ⟨fun h => ?_, fun h => ?_, fun h => ?_⟩
  · refine isWordCorrect_true_of word customDictionary (Or.inr (Or.inl ?_))
    rcases h with ⟨hne, hall⟩
    simp only [regexAllDigits, Bool.and_eq_true, List.all_eq_true]
    exact ⟨by simpa using hne, hall⟩
  · refine isWordCorrect_true_of word customDictionary (Or.inr (Or.inr ?_))
    rcases h with ⟨ls, ds, heq, hlne, hla, hdne, hda⟩
    rcases ds with _ | ⟨d, ds⟩
    · exact absurd rfl hdne
    have hd' : Char.isAlpha d = false :=
      isAlpha_eq_false_of_isDigit d (hda d (List.mem_cons_self d ds))
    simp only [regexLettersDigits]
    rw [heq, takeWhile_all_append ls d ds hla hd', List.drop_left]
    rcases ls with _ | ⟨l0, ls'⟩
    · exact absurd rfl hlne
    simp only [List.isEmpty_cons, Bool.not_false, Bool.true_and, Bool.and_eq_true,
      List.all_eq_true]
    exact fun c hc => hda c hc
  · refine isWordCorrect_true_of word customDictionary (Or.inl ?_)
    rcases h with ⟨hup, hlen⟩
    have : jsToUpper word = word := by
      unfold jsToUpper
      have := map_eq_self_of_mem word.data
        fun c hc => toUpper_eq_self_of_le_Z c (hup c hc).2
      rw [this]
    simp [this, hlen]

/-- C5 witness: `"2024"`, `"v2"` and `"NASA"` are accepted against a
dictionary containing none of them. -/
theorem C5_isWordCorrect_heuristics_witness :
    isWordCorrect "2024" ["zzz"] = true ∧ isWordCorrect "v2" ["zzz"] = true ∧
      isWordCorrect "NASA" ["zzz"] = true :=
  ⟨(C5_isWordCorrect_heuristics "2024" ["zzz"]).1 ⟨by decide, by decide⟩,
   (C5_isWordCorrect_heuristics "v2" ["zzz"]).2.1
     ⟨['v'], ['2'], by decide, by decide, by decide, by decide, by decide⟩,
   (C5_isWordCorrect_heuristics "NASA" ["zzz"]).2.2 ⟨by decide, by decide⟩⟩

/-! ### C9: sensitive-field exclusion -/

/-- C9: any element whose `autocomplete` attribute, lowercased, contains
the substring `"off"` is classified sensitive by `isSensitiveField`, so
`isEditableField` rejects it and it is never among the fields the
extension attaches to. -/
theorem C9_off_autocomplete_excluded (el : JSElement) (ac : String)
    (els : List JSElement) (hac : el.autocomplete = some ac)
    (hoff : strIncludes (jsToLower ac) "off" = true) :
    isSensitiveField el = true ∧ isEditableField el = false ∧
      el ∉ attachedFields els := by
  have hsens : isSensitiveField el = true := by
    simp [isSensitiveField, hac, sensitiveAutocompleteList, hoff]
  have hedit : isEditableField el = false := by
    cases hk : el.kind <;> simp [isEditableField, hk, hsens]
  refine ⟨hsens, hedit, fun hmem => ?_⟩
  rw [attachedFields, List.mem_filter] at hmem
  rw [hedit] at hmem
  exact absurd hmem.2 (by simp)

/-- C9 witness: a plain text input with `autocomplete="off"` is sensitive,
not editable, and not attached even when scanned. -/
theorem C9_off_autocomplete_excluded_witness :
    isSensitiveField ⟨ElemKind.input "text", some "off", none, "", none⟩ = true ∧
      isEditableField ⟨ElemKind.input "text", some "off", none, "", none⟩ = false ∧
      (⟨ElemKind.input "text", some "off", none, "", none⟩ : JSElement) ∉
        attachedFields [⟨ElemKind.input "text", some "off", none, "", none⟩] :=
  C9_off_autocomplete_excluded _ "off" _ rfl (by decide)

/-! ### C6/C10 helpers -/

theorem mem_stableInsert {le : α → α → Bool} (x a : α) :
    ∀ l : List α, a ∈ stableInsert le x l ↔ a = x ∨ a ∈ l := by
  intro l
  induction l with
  | nil => simp [stableInsert]
  | cons y ys ih =>
    cases h : le x y
    · simp only [stableInsert, h, Bool.false_eq_true, if_false, List.mem_cons, ih]
      try tauto
    · simp only [stableInsert, h, if_true, List.mem_cons]
      try tauto

theorem mem_sortByLE {le : α → α → Bool} (a : α) :
    ∀ l : List α, a ∈ sortByLE le l ↔ a ∈ l := by
  intro l
  induction l with
  | nil => simp [sortByLE]
  | cons x xs ih =>
    simp only [sortByLE, mem_stableInsert, ih, List.mem_cons]

theorem optionMapM_eq_map {f : α → Option β} {g : α → β}
    (hf : ∀ x, f x = some (g x)) :
    ∀ l : List α, optionMapM f l = some (l.map g) := by
  intro l
  induction l with
  | nil => rfl
  | cons x xs ih => simp [optionMapM, hf, ih]

theorem optionMapM_none_const_eq_some {l : List α} {res : List β}
    (h : optionMapM (fun _ => (none : Option β)) l = some res) : res = [] := by
  cases l with
  | nil => simpa [optionMapM] using h.symm
  | cons x xs => simp [optionMapM] at h

theorem optionMapM_none_on_ne_nil (f : α → Option β) (hf : ∀ x, f x = none)
    (l : List α) (hl : l ≠ []) : optionMapM f l = none := by
  cases l with
  | nil => exact absurd rfl hl
  | cons x xs => simp [optionMapM, hf]

theorem take_ne_nil_of_ne_nil {l : List α} (hl : l ≠ []) (n : Nat) (hn : n ≠ 0) :
    l.take n ≠ [] := by
  cases l with
  | nil => exact absurd rfl hl
  | cons x xs =>
    cases n with
    | zero => exact absurd rfl hn
    | succ n => simp

/-- The capitalisation condition of `getSuggestions`:
`word[0] === word[0].toUpperCase()`, which holds both for uppercase
letters and for caseless characters such as digits or apostrophes. -/
def jsFirstCharUpper (word : String) : Bool :=
  match word.data with
  | [] => false
  | c :: _ => c = Char.toUpper c

/-- C6 (counterexample): the input (ello preceded by an apostrophe)
starts with a character that is not an uppercase letter, yet against the
dictionary `["hello"]` the returned suggestion is `"Hello"`, capitalized
rather than the dictionary word unmodified. -/
theorem C6_caseless_first_char_capitalizes :
    "\x27ello".data.headD 'x' = '\x27' ∧ ¬('A' ≤ '\x27' ∧ '\x27' ≤ 'Z') ∧
      getSuggestions "\x27ello" ["hello"] 5 = some ["Hello"] ∧
      "Hello" ∉ (["hello"] : List String) :=
  ⟨rfl, by decide, by decide, by decide⟩

/-- C6 (amended): every suggestion returned by `getSuggestions` is a
dictionary word, with its first character uppercased exactly when the
first character of the input equals its own uppercase form (true for uppercase
letters and for caseless characters), and unmodified otherwise. -/
theorem C6_getSuggestions_capitalization (word : String) (dictionary : List String)
    (maxS : Nat) (res : List String) (s : String)
    (hres : getSuggestions word dictionary maxS = some res) (hs : s ∈ res) :
    ∃ d ∈ dictionary,
      s = if jsFirstCharUpper word then capitalizeFirst d else d := by
  simp only [getSuggestions] at hres
  rcases hw : word.data with _ | ⟨w0, rest⟩
  · simp only [hw] at hres
    rw [optionMapM_none_const_eq_some hres] at hs
    exact absurd hs (by simp)
  · simp only [hw] at hres
    rw [optionMapM_eq_map
        (g := fun c : String × Nat =>
          if w0 = Char.toUpper w0 then capitalizeFirst c.1 else c.1)
        (fun c => rfl)] at hres
    have hres' := Option.some.inj hres
    rw [← hres'] at hs
    rcases List.mem_map.1 hs with ⟨c, hcmem, hcs⟩
    have hc2 : c ∈ dictionary.filterMap _ :=
      (mem_sortByLE c _).1 (List.take_subset _ _ hcmem)
    rcases List.mem_filterMap.1 hc2 with ⟨d, hd, hfd⟩
    refine ⟨d, hd, ?_⟩
    have hc1 : c.1 = d := by
      split at hfd
      · exact absurd hfd (by simp)
      · split at hfd
        · rw [← Option.some.inj hfd]
        · exact absurd hfd (by simp)
    have hcs' : (if w0 = Char.toUpper w0 then capitalizeFirst c.1 else c.1) = s := hcs
    have hjf : jsFirstCharUpper word = decide (w0 = Char.toUpper w0) := by
      simp only [jsFirstCharUpper, hw]
    rw [← hcs', hc1, hjf]
    by_cases hcase : w0 = Char.toUpper w0
    · rw [if_pos hcase, if_pos (decide_eq_true hcase)]
    · rw [if_neg hcase, if_neg (by simp [hcase])]

/-- C6 witness: for the uppercase-initial input `"Helo"` and dictionary
`["hello"]` the suggestion `"Hello"` is the capitalized dictionary word. -/
theorem C6_getSuggestions_capitalization_witness :
    ∃ d ∈ (["hello"] : List String),
      "Hello" = if jsFirstCharUpper "Helo" then capitalizeFirst d else d :=
  C6_getSuggestions_capitalization "Helo" ["hello"] 5 ["Hello"] "Hello"
    (by decide) (by decide)

/-- The distance of the empty string to `w` is `w.length`. -/
theorem levenshteinDistance_empty_left (w : String) :
    levenshteinDistance "" w = w.length := by
  rw [levenshteinDistance_eq_lev]
  show lev w.data.reverse [] = _
  rw [lev_nil_right, List.length_reverse]
  rfl

/-- C10: `getSuggestions` returns a list without error on every non-empty
input word, but on the empty word with a dictionary containing some word
of length at most two (which passes the length and distance filters) the
capitalisation step evaluates `word[0].toUpperCase()` on `undefined` and
the call throws (`none`). -/
theorem C10_getSuggestions_empty_word :
    (∀ (word : String) (dictionary : List String) (maxS : Nat), word ≠ "" →
        ∃ l, getSuggestions word dictionary maxS = some l) ∧
      (∀ dictionary : List String, (∃ w ∈ dictionary, w.length ≤ 2) →
        getSuggestions "" dictionary 5 = none) := by
  constructor
  · intro word dictionary maxS hword
    rcases hw : word.data with _ | ⟨w0, rest⟩
    · refine absurd ?_ hword
      cases word with
      | mk d =>
        simp only at hw
        rw [hw]
    · simp only [getSuggestions, hw]
      exact ⟨_, optionMapM_eq_map (fun c => rfl) _⟩
  · rintro dictionary ⟨w, hwmem, hwlen⟩
    have hscore :
        (fun dictWord =>
          if ((dictWord.length : Int) - ((jsToLower "").length : Int)).natAbs > 2 then
            none
          else
            let distance := levenshteinDistance (jsToLower "") dictWord
            if distance ≤ 2 then
              let isAdjacent := isAdjacentKeyTypo (jsToLower "") dictWord
              some (dictWord, 2 * distance - (if isAdjacent then 1 else 0))
            else none) w =
          some (w, 2 * levenshteinDistance (jsToLower "") w -
            (if isAdjacentKeyTypo (jsToLower "") w then 1 else 0)) := by
      have h0 : ((jsToLower "").length : Int) = 0 := rfl
      have hlev : levenshteinDistance (jsToLower "") w ≤ 2 := by
        have : jsToLower "" = "" := rfl
        rw [this, levenshteinDistance_empty_left]
        exact hwlen
      have h1 : ¬(((w.length : Int) - ((jsToLower "").length : Int)).natAbs > 2) := by
        rw [h0]
        simp only [Int.sub_zero, Int.natAbs_ofNat, gt_iff_lt, not_lt]
        omega
      show (if _ then _ else _) = _
      rw [if_neg h1]
      show (if _ then _ else _) = _
      rw [if_pos hlev]
    simp only [getSuggestions]
    refine optionMapM_none_on_ne_nil _ (fun x => rfl) _ ?_
    refine take_ne_nil_of_ne_nil ?_ 5 (by decide)
    refine List.ne_nil_of_mem
      (a := (w, 2 * levenshteinDistance (jsToLower "") w -
        (if isAdjacentKeyTypo (jsToLower "") w then 1 else 0)))
      ((mem_sortByLE _ _).2 ?_)
    exact List.mem_filterMap.2 ⟨w, hwmem, hscore⟩

/-- C10 witness: `"helo"` gets a suggestion list, the empty word against
`["hi"]` throws. -/
theorem C10_getSuggestions_empty_word_witness :
    (∃ l, getSuggestions "helo" ["hello"] 5 = some l) ∧
      getSuggestions "" ["hi"] 5 = none :=
  ⟨C10_getSuggestions_empty_word.1 "helo" ["hello"] 5 (by decide),
   C10_getSuggestions_empty_word.2 ["hi"] ⟨"hi", by decide, by decide⟩⟩

/-! ### C7: dictionary import/export round trip -/

/-- Invariant of the `importDictionary` loop, for states where the
`existingWords` set is exactly the (already normalized) words of the
entry array: the result extends the array, counts exactly the new
entries, stays duplicate-free, and its word set is the union of the
starting words and the normalized forms of the (nonempty) imported
words. -/
theorem importLoop_spec (now : Nat) :
    ∀ (ws : List String) (entries : List DictionaryEntry) (c : Nat),
      (∀ w ∈ ws, jsTrim (jsToLower w) ≠ "") →
      entries.length ≤ (importLoop now ws entries (entries.map fun e => e.word) c).1.length ∧
      (importLoop now ws entries (entries.map fun e => e.word) c).2 =
        c + ((importLoop now ws entries (entries.map fun e => e.word) c).1.length
          - entries.length) ∧
      ((entries.map fun e => e.word).Nodup →
        ((importLoop now ws entries (entries.map fun e => e.word) c).1.map
          fun e => e.word).Nodup) ∧
      (∀ x, x ∈ ((importLoop now ws entries (entries.map fun e => e.word) c).1.map
            fun e => e.word) ↔
        x ∈ (entries.map fun e => e.word) ∨
          x ∈ ws.map fun w => jsTrim (jsToLower w)) := by
  intro ws
  induction ws with
  | nil =>
    intro entries c _
    refine ⟨Nat.le_refl _, by simp [importLoop], fun h => h, fun x => by simp [importLoop]⟩
  | cons w ws ih =>
    intro entries c hws
    have hw : jsTrim (jsToLower w) ≠ "" := hws w (List.mem_cons_self w ws)
    have hbeq : (jsTrim (jsToLower w) == "") = false := by
      simpa using hw
    have hws' : ∀ v ∈ ws, jsTrim (jsToLower v) ≠ "" :=
      fun v hv => hws v (List.mem_cons_of_mem w hv)
    simp only [importLoop, hbeq, Bool.not_false, Bool.true_and]
    cases hcon : (entries.map fun e => e.word).contains (jsTrim (jsToLower w)) with
    | true =>
      have hmem : jsTrim (jsToLower w) ∈ entries.map fun e => e.word := by
        simpa using hcon
      simp only [Bool.not_true, Bool.false_eq_true, if_false]
      rcases ih entries c hws' with ⟨hlen, hcount, hnd, hiff⟩
      refine ⟨hlen, hcount, hnd, fun x => ?_⟩
      rw [hiff x]
      simp only [List.map_cons, List.mem_cons]
      constructor
      · tauto
      · rintro (h | h | h)
        · tauto
        · exact Or.inl (h ▸ hmem)
        · tauto
    | false =>
      have hnmem : jsTrim (jsToLower w) ∉ entries.map fun e => e.word := by
        simpa using hcon
      simp only [Bool.not_false, Bool.true_eq_false, if_true]
      have hmapext :
          (entries.map fun e => e.word) ++ [jsTrim (jsToLower w)] =
            (entries ++ [({ word := jsTrim (jsToLower w), addedAt := now } :
                DictionaryEntry)]).map
              fun e => e.word := by
        simp
      rw [hmapext]
      rcases ih (entries ++ [({ word := jsTrim (jsToLower w), addedAt := now } :
          DictionaryEntry)]) (c + 1) hws' with ⟨hlen, hcount, hnd, hiff⟩
      have hlen' : (entries ++ [({ word := jsTrim (jsToLower w), addedAt := now } :
          DictionaryEntry)]).length = entries.length + 1 := by simp
      refine ⟨?_, ?_, ?_, ?_⟩
      · omega
      · omega
      · intro hndin
        apply hnd
        rw [← hmapext, List.nodup_append]
        refine ⟨hndin, List.nodup_singleton _, ?_⟩
        intro a ha hb
        rw [List.mem_singleton] at hb
        exact hnmem (hb ▸ ha)
      · intro x
        rw [hiff x, ← hmapext]
        simp only [List.mem_append, List.mem_singleton, List.map_cons, List.mem_cons]
        tauto

/-- C7: importing a list of words (each nonempty once lowercased and
trimmed) into an empty custom dictionary and exporting yields exactly the
set of lowercase trimmed forms of the imported words — duplicates
collapsed (the export is duplicate-free) — and `importDictionary` returns
the number of newly added words. -/
theorem C7_import_export_roundtrip (words : List String) (now : Nat)
    (h : ∀ w ∈ words, jsTrim (jsToLower w) ≠ "") :
    (exportDictionary (importDictionary [] words now).1).Nodup ∧
      (∀ x, x ∈ exportDictionary (importDictionary [] words now).1 ↔
        x ∈ words.map fun w => jsTrim (jsToLower w)) ∧
      (importDictionary [] words now).2 =
        (exportDictionary (importDictionary [] words now).1).length := by
  rcases importLoop_spec now words [] 0 h with ⟨hlen, hcount, hnd, hiff⟩
  refine ⟨hnd (by simp), fun x => ?_, ?_⟩
  · rw [show exportDictionary (importDictionary [] words now).1 =
        (importLoop now words []
          (([] : List DictionaryEntry).map fun e => e.word) 0).1.map
          (fun e => e.word)
      from rfl]
    rw [hiff x]
    simp
  · rw [show (importDictionary [] words now).2 =
        (importLoop now words []
          (([] : List DictionaryEntry).map fun e => e.word) 0).2 from rfl]
    rw [hcount]
    simp [exportDictionary, importDictionary]

/-- C7 witness: importing `["Apple", "  apple ", "Banana"]` yields the
two-word set `{"apple", "banana"}` and reports two additions. -/
theorem C7_import_export_roundtrip_witness :
    (exportDictionary (importDictionary [] ["Apple", "  apple ", "Banana"] 7).1).Nodup ∧
      (∀ x, x ∈ exportDictionary (importDictionary [] ["Apple", "  apple ", "Banana"] 7).1 ↔
        x ∈ ["Apple", "  apple ", "Banana"].map fun w => jsTrim (jsToLower w)) ∧
      (importDictionary [] ["Apple", "  apple ", "Banana"] 7).2 =
        (exportDictionary (importDictionary [] ["Apple", "  apple ", "Banana"] 7).1).length :=
  C7_import_export_roundtrip ["Apple", "  apple ", "Banana"] 7 (by decide)

end FSA
